import Mathlib

/-! BME680 register map.

A shallow embedding of `BME680.hpp` (class `BME680_Base`): the address, field and named
constants of every register, the `set`/`get` accessor pair of every register, and the two
pure virtual primitives `read8` and `write` the accessors delegate to.

Machine integers are natural numbers. A `uint8_t` parameter holds its argument modulo `2^8`,
which is written out as `value % 256` where an accessor receives `value`. Constants keep the
literal the header gives them.
-/

namespace BME680_Base

/-- The pure virtual functions a derived class implements, over the effect `m` in which the
bus is driven:
`virtual uint8_t read8(uint16_t address, uint16_t n=8) = 0` and
`virtual void write(uint16_t address, uint8_t value, uint16_t n=8) = 0`. -/
structure Transport (m : Type → Type) where
  read8 : Nat → Nat → m Nat
  write : Nat → Nat → Nat → m Unit

variable {m : Type → Type}

/-! ### REG STATUS (BME680.hpp:40) -/

namespace STATUS
def __address : Nat := 115
namespace unused_0
def dflt : Nat := 0b000
def mask : Nat := 0b11100000
end unused_0
namespace spi_mem_page
def dflt : Nat := 0b0
def mask : Nat := 0b00010000
end spi_mem_page
namespace unused_1
def dflt : Nat := 0b0001
def mask : Nat := 0b00001111
end unused_1
end STATUS

/-- Set register STATUS: the body is the single call write(STATUS::__address, value, 8). -/
def setSTATUS (T : Transport m) (value : Nat) : m Unit :=
  T.write STATUS.__address (value % 256) 8

/-- Get register STATUS: the body is the single call read8(STATUS::__address, 8). -/
def getSTATUS (T : Transport m) : m Nat :=
  T.read8 STATUS.__address 8

/-! ### REG RESET (BME680.hpp:90) -/

namespace RESET
def __address : Nat := 224
namespace Reset
def dflt : Nat := 0b00000000
def mask : Nat := 0b11111111
def RESET : Nat := 0xb6
end Reset
end RESET

/-- Set register RESET: the body is the single call write(RESET::__address, value, 8). -/
def setRESET (T : Transport m) (value : Nat) : m Unit :=
  T.write RESET.__address (value % 256) 8

/-- Get register RESET: the body is the single call read8(RESET::__address, 8). -/
def getRESET (T : Transport m) : m Nat :=
  T.read8 RESET.__address 8

/-! ### REG Id (BME680.hpp:127) -/

namespace Id
def __address : Nat := 208
namespace chip_id
def dflt : Nat := 0b01100001
def mask : Nat := 0b11111111
end chip_id
end Id

/-- Set register Id: the body is the single call write(Id::__address, value, 8). -/
def setId (T : Transport m) (value : Nat) : m Unit :=
  T.write Id.__address (value % 256) 8

/-- Get register Id: the body is the single call read8(Id::__address, 8). -/
def getId (T : Transport m) : m Nat :=
  T.read8 Id.__address 8

/-! ### REG Config (BME680.hpp:163) -/

namespace Config
def __address : Nat := 117
namespace unused_0
def dflt : Nat := 0b000
def mask : Nat := 0b11100000
end unused_0
namespace filter
def dflt : Nat := 0b000
def mask : Nat := 0b00011100
end filter
namespace unused_1
def dflt : Nat := 0b0
def mask : Nat := 0b00000010
end unused_1
namespace spi_3w_en
def dflt : Nat := 0b0
def mask : Nat := 0b00000001
end spi_3w_en
end Config

/-- Set register Config: the body is the single call write(Config::__address, value, 8). -/
def setConfig (T : Transport m) (value : Nat) : m Unit :=
  T.write Config.__address (value % 256) 8

/-- Get register Config: the body is the single call read8(Config::__address, 8). -/
def getConfig (T : Transport m) : m Nat :=
  T.read8 Config.__address 8

/-! ### REG Ctrl_meas (BME680.hpp:230) -/

namespace Ctrl_meas
def __address : Nat := 116
namespace osrs_t
def dflt : Nat := 0b000
def mask : Nat := 0b11100000
def SKIPPED : Nat := 0b00
def X1 : Nat := 0b01
def X2 : Nat := 0b10
def X4 : Nat := 0b11
def X8 : Nat := 0b100
def X16 : Nat := 0b101
end osrs_t
namespace osrs_p
def dflt : Nat := 0b000
def mask : Nat := 0b00011100
def SKIPPED : Nat := 0b00
def X1 : Nat := 0b01
def X2 : Nat := 0b10
def X4 : Nat := 0b11
def X8 : Nat := 0b100
def X16 : Nat := 0b101
end osrs_p
namespace mode
def dflt : Nat := 0b00
def mask : Nat := 0b00000011
def SLEEP : Nat := 0b00
def FORCED : Nat := 0b01
end mode
end Ctrl_meas

/-- Set register Ctrl_meas: the body is the single call write(Ctrl_meas::__address, value, 8). -/
def setCtrl_meas (T : Transport m) (value : Nat) : m Unit :=
  T.write Ctrl_meas.__address (value % 256) 8

/-- Get register Ctrl_meas: the body is the single call read8(Ctrl_meas::__address, 8). -/
def getCtrl_meas (T : Transport m) : m Nat :=
  T.read8 Ctrl_meas.__address 8

/-! ### REG Ctrl_hum (BME680.hpp:295) -/

namespace Ctrl_hum
def __address : Nat := 114
namespace unused_0
def dflt : Nat := 0b0
def mask : Nat := 0b10000000
end unused_0
namespace spi_3w_int_en
def dflt : Nat := 0b0
def mask : Nat := 0b01000000
end spi_3w_int_en
namespace unused_1
def dflt : Nat := 0b000
def mask : Nat := 0b00111000
end unused_1
namespace osrs_h
def dflt : Nat := 0b000
def mask : Nat := 0b00000111
def SKIPPED : Nat := 0b00
def X1 : Nat := 0b01
def X2 : Nat := 0b10
def X4 : Nat := 0b11
def X8 : Nat := 0b100
def X16 : Nat := 0b101
end osrs_h
end Ctrl_hum

/-- Set register Ctrl_hum: the body is the single call write(Ctrl_hum::__address, value, 8). -/
def setCtrl_hum (T : Transport m) (value : Nat) : m Unit :=
  T.write Ctrl_hum.__address (value % 256) 8

/-- Get register Ctrl_hum: the body is the single call read8(Ctrl_hum::__address, 8). -/
def getCtrl_hum (T : Transport m) : m Nat :=
  T.read8 Ctrl_hum.__address 8

/-! ### REG Ctrl_gas_1 (BME680.hpp:360) -/

namespace Ctrl_gas_1
def __address : Nat := 113
namespace unused_0
def dflt : Nat := 0b000
def mask : Nat := 0b11100000
end unused_0
namespace run_gas
def dflt : Nat := 0b0
def mask : Nat := 0b00010000
end run_gas
namespace nb_conv
def dflt : Nat := 0b0000
def mask : Nat := 0b00001111
end nb_conv
end Ctrl_gas_1

/-- Set register Ctrl_gas_1: the body is the single call write(Ctrl_gas_1::__address, value, 8). -/
def setCtrl_gas_1 (T : Transport m) (value : Nat) : m Unit :=
  T.write Ctrl_gas_1.__address (value % 256) 8

/-- Get register Ctrl_gas_1: the body is the single call read8(Ctrl_gas_1::__address, 8). -/
def getCtrl_gas_1 (T : Transport m) : m Nat :=
  T.read8 Ctrl_gas_1.__address 8

/-! ### REG Ctrl_gas_0 (BME680.hpp:409) -/

namespace Ctrl_gas_0
def __address : Nat := 112
namespace unused_0
def dflt : Nat := 0b0000
def mask : Nat := 0b11110000
end unused_0
namespace heat_off
def dflt : Nat := 0b0
def mask : Nat := 0b00001000
def HEAT_OFF : Nat := 0b1
def HEAT_ON : Nat := 0b0
end heat_off
namespace unused_1
def dflt : Nat := 0b000
def mask : Nat := 0b00000111
end unused_1
end Ctrl_gas_0

/-- Set register Ctrl_gas_0: the body is the single call write(Ctrl_gas_0::__address, value, 8). -/
def setCtrl_gas_0 (T : Transport m) (value : Nat) : m Unit :=
  T.write Ctrl_gas_0.__address (value % 256) 8

/-- Get register Ctrl_gas_0: the body is the single call read8(Ctrl_gas_0::__address, 8). -/
def getCtrl_gas_0 (T : Transport m) : m Nat :=
  T.read8 Ctrl_gas_0.__address 8

/-! ### REG Gas_wait_9 (BME680.hpp:461) -/

namespace Gas_wait_9
def __address : Nat := 109
namespace gas_wait_mult
def dflt : Nat := 0b00
def mask : Nat := 0b11000000
def X1 : Nat := 0b00
def X4 : Nat := 0b01
def X16 : Nat := 0b10
def X64 : Nat := 0b11
end gas_wait_mult
namespace gas_wait_val
def dflt : Nat := 0b000000
def mask : Nat := 0b00111111
end gas_wait_val
end Gas_wait_9

/-- Set register Gas_wait_9: the body is the single call write(Gas_wait_9::__address, value, 8). -/
def setGas_wait_9 (T : Transport m) (value : Nat) : m Unit :=
  T.write Gas_wait_9.__address (value % 256) 8

/-- Get register Gas_wait_9: the body is the single call read8(Gas_wait_9::__address, 8). -/
def getGas_wait_9 (T : Transport m) : m Nat :=
  T.read8 Gas_wait_9.__address 8

/-! ### REG Gas_wait_8 (BME680.hpp:508) -/

namespace Gas_wait_8
def __address : Nat := 108
namespace gas_wait_mult
def dflt : Nat := 0b00
def mask : Nat := 0b11000000
def X1 : Nat := 0b00
def X4 : Nat := 0b01
def X16 : Nat := 0b10
def X64 : Nat := 0b11
end gas_wait_mult
namespace gas_wait_val
def dflt : Nat := 0b000000
def mask : Nat := 0b00111111
end gas_wait_val
end Gas_wait_8

/-- Set register Gas_wait_8: the body is the single call write(Gas_wait_8::__address, value, 8). -/
def setGas_wait_8 (T : Transport m) (value : Nat) : m Unit :=
  T.write Gas_wait_8.__address (value % 256) 8

/-- Get register Gas_wait_8: the body is the single call read8(Gas_wait_8::__address, 8). -/
def getGas_wait_8 (T : Transport m) : m Nat :=
  T.read8 Gas_wait_8.__address 8

/-! ### REG Gas_wait_7 (BME680.hpp:555) -/

namespace Gas_wait_7
def __address : Nat := 107
namespace gas_wait_mult
def dflt : Nat := 0b00
def mask : Nat := 0b11000000
def X1 : Nat := 0b00
def X4 : Nat := 0b01
def X16 : Nat := 0b10
def X64 : Nat := 0b11
end gas_wait_mult
namespace gas_wait_val
def dflt : Nat := 0b000000
def mask : Nat := 0b00111111
end gas_wait_val
end Gas_wait_7

/-- Set register Gas_wait_7: the body is the single call write(Gas_wait_7::__address, value, 8). -/
def setGas_wait_7 (T : Transport m) (value : Nat) : m Unit :=
  T.write Gas_wait_7.__address (value % 256) 8

/-- Get register Gas_wait_7: the body is the single call read8(Gas_wait_7::__address, 8). -/
def getGas_wait_7 (T : Transport m) : m Nat :=
  T.read8 Gas_wait_7.__address 8

/-! ### REG Gas_wait_6 (BME680.hpp:602) -/

namespace Gas_wait_6
def __address : Nat := 106
namespace gas_wait_mult
def dflt : Nat := 0b00
def mask : Nat := 0b11000000
def X1 : Nat := 0b00
def X4 : Nat := 0b01
def X16 : Nat := 0b10
def X64 : Nat := 0b11
end gas_wait_mult
namespace gas_wait_val
def dflt : Nat := 0b000000
def mask : Nat := 0b00111111
end gas_wait_val
end Gas_wait_6

/-- Set register Gas_wait_6: the body is the single call write(Gas_wait_6::__address, value, 8). -/
def setGas_wait_6 (T : Transport m) (value : Nat) : m Unit :=
  T.write Gas_wait_6.__address (value % 256) 8

/-- Get register Gas_wait_6: the body is the single call read8(Gas_wait_6::__address, 8). -/
def getGas_wait_6 (T : Transport m) : m Nat :=
  T.read8 Gas_wait_6.__address 8

/-! ### REG Gas_wait_5 (BME680.hpp:649) -/

namespace Gas_wait_5
def __address : Nat := 105
namespace gas_wait_mult
def dflt : Nat := 0b00
def mask : Nat := 0b11000000
def X1 : Nat := 0b00
def X4 : Nat := 0b01
def X16 : Nat := 0b10
def X64 : Nat := 0b11
end gas_wait_mult
namespace gas_wait_val
def dflt : Nat := 0b000000
def mask : Nat := 0b00111111
end gas_wait_val
end Gas_wait_5

/-- Set register Gas_wait_5: the body is the single call write(Gas_wait_5::__address, value, 8). -/
def setGas_wait_5 (T : Transport m) (value : Nat) : m Unit :=
  T.write Gas_wait_5.__address (value % 256) 8

/-- Get register Gas_wait_5: the body is the single call read8(Gas_wait_5::__address, 8). -/
def getGas_wait_5 (T : Transport m) : m Nat :=
  T.read8 Gas_wait_5.__address 8

/-! ### REG Gas_wait_4 (BME680.hpp:696) -/

namespace Gas_wait_4
def __address : Nat := 104
namespace gas_wait_mult
def dflt : Nat := 0b00
def mask : Nat := 0b11000000
def X1 : Nat := 0b00
def X4 : Nat := 0b01
def X16 : Nat := 0b10
def X64 : Nat := 0b11
end gas_wait_mult
namespace gas_wait_val
def dflt : Nat := 0b000000
def mask : Nat := 0b00111111
end gas_wait_val
end Gas_wait_4

/-- Set register Gas_wait_4: the body is the single call write(Gas_wait_4::__address, value, 8). -/
def setGas_wait_4 (T : Transport m) (value : Nat) : m Unit :=
  T.write Gas_wait_4.__address (value % 256) 8

/-- Get register Gas_wait_4: the body is the single call read8(Gas_wait_4::__address, 8). -/
def getGas_wait_4 (T : Transport m) : m Nat :=
  T.read8 Gas_wait_4.__address 8

/-! ### REG Gas_wait_3 (BME680.hpp:743) -/

namespace Gas_wait_3
def __address : Nat := 103
namespace gas_wait_mult
def dflt : Nat := 0b00
def mask : Nat := 0b11000000
def X1 : Nat := 0b00
def X4 : Nat := 0b01
def X16 : Nat := 0b10
def X64 : Nat := 0b11
end gas_wait_mult
namespace gas_wait_val
def dflt : Nat := 0b000000
def mask : Nat := 0b00111111
end gas_wait_val
end Gas_wait_3

/-- Set register Gas_wait_3: the body is the single call write(Gas_wait_3::__address, value, 8). -/
def setGas_wait_3 (T : Transport m) (value : Nat) : m Unit :=
  T.write Gas_wait_3.__address (value % 256) 8

/-- Get register Gas_wait_3: the body is the single call read8(Gas_wait_3::__address, 8). -/
def getGas_wait_3 (T : Transport m) : m Nat :=
  T.read8 Gas_wait_3.__address 8

/-! ### REG Gas_wait_2 (BME680.hpp:790) -/

namespace Gas_wait_2
def __address : Nat := 102
namespace gas_wait_mult
def dflt : Nat := 0b00
def mask : Nat := 0b11000000
def X1 : Nat := 0b00
def X4 : Nat := 0b01
def X16 : Nat := 0b10
def X64 : Nat := 0b11
end gas_wait_mult
namespace gas_wait_val
def dflt : Nat := 0b000000
def mask : Nat := 0b00111111
end gas_wait_val
end Gas_wait_2

/-- Set register Gas_wait_2: the body is the single call write(Gas_wait_2::__address, value, 8). -/
def setGas_wait_2 (T : Transport m) (value : Nat) : m Unit :=
  T.write Gas_wait_2.__address (value % 256) 8

/-- Get register Gas_wait_2: the body is the single call read8(Gas_wait_2::__address, 8). -/
def getGas_wait_2 (T : Transport m) : m Nat :=
  T.read8 Gas_wait_2.__address 8

/-! ### REG Gas_wait_1 (BME680.hpp:837) -/

namespace Gas_wait_1
def __address : Nat := 101
namespace gas_wait_mult
def dflt : Nat := 0b00
def mask : Nat := 0b11000000
def X1 : Nat := 0b00
def X4 : Nat := 0b01
def X16 : Nat := 0b10
def X64 : Nat := 0b11
end gas_wait_mult
namespace gas_wait_val
def dflt : Nat := 0b000000
def mask : Nat := 0b00111111
end gas_wait_val
end Gas_wait_1

/-- Set register Gas_wait_1: the body is the single call write(Gas_wait_1::__address, value, 8). -/
def setGas_wait_1 (T : Transport m) (value : Nat) : m Unit :=
  T.write Gas_wait_1.__address (value % 256) 8

/-- Get register Gas_wait_1: the body is the single call read8(Gas_wait_1::__address, 8). -/
def getGas_wait_1 (T : Transport m) : m Nat :=
  T.read8 Gas_wait_1.__address 8

/-! ### REG Gas_wait_0 (BME680.hpp:884) -/

namespace Gas_wait_0
def __address : Nat := 100
namespace gas_wait_mult
def dflt : Nat := 0b00
def mask : Nat := 0b11000000
def X1 : Nat := 0b00
def X4 : Nat := 0b01
def X16 : Nat := 0b10
def X64 : Nat := 0b11
end gas_wait_mult
namespace gas_wait_val
def dflt : Nat := 0b000000
def mask : Nat := 0b00111111
end gas_wait_val
end Gas_wait_0

/-- Set register Gas_wait_0: the body is the single call write(Gas_wait_0::__address, value, 8). -/
def setGas_wait_0 (T : Transport m) (value : Nat) : m Unit :=
  T.write Gas_wait_0.__address (value % 256) 8

/-- Get register Gas_wait_0: the body is the single call read8(Gas_wait_0::__address, 8). -/
def getGas_wait_0 (T : Transport m) : m Nat :=
  T.read8 Gas_wait_0.__address 8

/-! ### REG Res_heat_9 (BME680.hpp:931) -/

namespace Res_heat_9
def __address : Nat := 99
namespace res_heat
def dflt : Nat := 0b00000000
def mask : Nat := 0b11111111
end res_heat
end Res_heat_9

/-- Set register Res_heat_9: the body is the single call write(Res_heat_9::__address, value, 8). -/
def setRes_heat_9 (T : Transport m) (value : Nat) : m Unit :=
  T.write Res_heat_9.__address (value % 256) 8

/-- Get register Res_heat_9: the body is the single call read8(Res_heat_9::__address, 8). -/
def getRes_heat_9 (T : Transport m) : m Nat :=
  T.read8 Res_heat_9.__address 8

/-! ### REG Res_heat_8 (BME680.hpp:967) -/

namespace Res_heat_8
def __address : Nat := 98
namespace res_heat
def dflt : Nat := 0b00000000
def mask : Nat := 0b11111111
end res_heat
end Res_heat_8

/-- Set register Res_heat_8: the body is the single call write(Res_heat_8::__address, value, 8). -/
def setRes_heat_8 (T : Transport m) (value : Nat) : m Unit :=
  T.write Res_heat_8.__address (value % 256) 8

/-- Get register Res_heat_8: the body is the single call read8(Res_heat_8::__address, 8). -/
def getRes_heat_8 (T : Transport m) : m Nat :=
  T.read8 Res_heat_8.__address 8

/-! ### REG Res_heat_7 (BME680.hpp:1003) -/

namespace Res_heat_7
def __address : Nat := 97
namespace res_heat
def dflt : Nat := 0b00000000
def mask : Nat := 0b11111111
end res_heat
end Res_heat_7

/-- Set register Res_heat_7: the body is the single call write(Res_heat_7::__address, value, 8). -/
def setRes_heat_7 (T : Transport m) (value : Nat) : m Unit :=
  T.write Res_heat_7.__address (value % 256) 8

/-- Get register Res_heat_7: the body is the single call read8(Res_heat_7::__address, 8). -/
def getRes_heat_7 (T : Transport m) : m Nat :=
  T.read8 Res_heat_7.__address 8

/-! ### REG Res_heat_6 (BME680.hpp:1039) -/

namespace Res_heat_6
def __address : Nat := 96
namespace res_heat
def dflt : Nat := 0b00000000
def mask : Nat := 0b11111111
end res_heat
end Res_heat_6

/-- Set register Res_heat_6: the body is the single call write(Res_heat_6::__address, value, 8). -/
def setRes_heat_6 (T : Transport m) (value : Nat) : m Unit :=
  T.write Res_heat_6.__address (value % 256) 8

/-- Get register Res_heat_6: the body is the single call read8(Res_heat_6::__address, 8). -/
def getRes_heat_6 (T : Transport m) : m Nat :=
  T.read8 Res_heat_6.__address 8

/-! ### REG Res_heat_5 (BME680.hpp:1075) -/

namespace Res_heat_5
def __address : Nat := 95
namespace res_heat
def dflt : Nat := 0b00000000
def mask : Nat := 0b11111111
end res_heat
end Res_heat_5

/-- Set register Res_heat_5: the body is the single call write(Res_heat_5::__address, value, 8). -/
def setRes_heat_5 (T : Transport m) (value : Nat) : m Unit :=
  T.write Res_heat_5.__address (value % 256) 8

/-- Get register Res_heat_5: the body is the single call read8(Res_heat_5::__address, 8). -/
def getRes_heat_5 (T : Transport m) : m Nat :=
  T.read8 Res_heat_5.__address 8

/-! ### REG Res_heat_4 (BME680.hpp:1111) -/

namespace Res_heat_4
def __address : Nat := 94
namespace res_heat
def dflt : Nat := 0b00000000
def mask : Nat := 0b11111111
end res_heat
end Res_heat_4

/-- Set register Res_heat_4: the body is the single call write(Res_heat_4::__address, value, 8). -/
def setRes_heat_4 (T : Transport m) (value : Nat) : m Unit :=
  T.write Res_heat_4.__address (value % 256) 8

/-- Get register Res_heat_4: the body is the single call read8(Res_heat_4::__address, 8). -/
def getRes_heat_4 (T : Transport m) : m Nat :=
  T.read8 Res_heat_4.__address 8

/-! ### REG Res_heat_3 (BME680.hpp:1147) -/

namespace Res_heat_3
def __address : Nat := 93
namespace res_heat
def dflt : Nat := 0b00000000
def mask : Nat := 0b11111111
end res_heat
end Res_heat_3

/-- Set register Res_heat_3: the body is the single call write(Res_heat_3::__address, value, 8). -/
def setRes_heat_3 (T : Transport m) (value : Nat) : m Unit :=
  T.write Res_heat_3.__address (value % 256) 8

/-- Get register Res_heat_3: the body is the single call read8(Res_heat_3::__address, 8). -/
def getRes_heat_3 (T : Transport m) : m Nat :=
  T.read8 Res_heat_3.__address 8

/-! ### REG Res_heat_2 (BME680.hpp:1183) -/

namespace Res_heat_2
def __address : Nat := 92
namespace res_heat
def dflt : Nat := 0b00000000
def mask : Nat := 0b11111111
end res_heat
end Res_heat_2

/-- Set register Res_heat_2: the body is the single call write(Res_heat_2::__address, value, 8). -/
def setRes_heat_2 (T : Transport m) (value : Nat) : m Unit :=
  T.write Res_heat_2.__address (value % 256) 8

/-- Get register Res_heat_2: the body is the single call read8(Res_heat_2::__address, 8). -/
def getRes_heat_2 (T : Transport m) : m Nat :=
  T.read8 Res_heat_2.__address 8

/-! ### REG Res_heat_1 (BME680.hpp:1219) -/

namespace Res_heat_1
def __address : Nat := 91
namespace res_heat
def dflt : Nat := 0b00000000
def mask : Nat := 0b11111111
end res_heat
end Res_heat_1

/-- Set register Res_heat_1: the body is the single call write(Res_heat_1::__address, value, 8). -/
def setRes_heat_1 (T : Transport m) (value : Nat) : m Unit :=
  T.write Res_heat_1.__address (value % 256) 8

/-- Get register Res_heat_1: the body is the single call read8(Res_heat_1::__address, 8). -/
def getRes_heat_1 (T : Transport m) : m Nat :=
  T.read8 Res_heat_1.__address 8

/-! ### REG Res_heat_0 (BME680.hpp:1255) -/

namespace Res_heat_0
def __address : Nat := 90
namespace res_heat
def dflt : Nat := 0b00000000
def mask : Nat := 0b11111111
end res_heat
end Res_heat_0

/-- Set register Res_heat_0: the body is the single call write(Res_heat_0::__address, value, 8). -/
def setRes_heat_0 (T : Transport m) (value : Nat) : m Unit :=
  T.write Res_heat_0.__address (value % 256) 8

/-- Get register Res_heat_0: the body is the single call read8(Res_heat_0::__address, 8). -/
def getRes_heat_0 (T : Transport m) : m Nat :=
  T.read8 Res_heat_0.__address 8

/-! ### REG Idac_heat_9 (BME680.hpp:1300) -/

namespace Idac_heat_9
def __address : Nat := 89
namespace idac_heat
def dflt : Nat := 0b00000000
def mask : Nat := 0b11111111
end idac_heat
end Idac_heat_9

/-- Set register Idac_heat_9: the body is the single call write(Idac_heat_9::__address, value, 8). -/
def setIdac_heat_9 (T : Transport m) (value : Nat) : m Unit :=
  T.write Idac_heat_9.__address (value % 256) 8

/-- Get register Idac_heat_9: the body is the single call read8(Idac_heat_9::__address, 8). -/
def getIdac_heat_9 (T : Transport m) : m Nat :=
  T.read8 Idac_heat_9.__address 8

/-! ### REG Idac_heat_8 (BME680.hpp:1336) -/

namespace Idac_heat_8
def __address : Nat := 88
namespace idac_heat
def dflt : Nat := 0b00000000
def mask : Nat := 0b11111111
end idac_heat
end Idac_heat_8

/-- Set register Idac_heat_8: the body is the single call write(Idac_heat_8::__address, value, 8). -/
def setIdac_heat_8 (T : Transport m) (value : Nat) : m Unit :=
  T.write Idac_heat_8.__address (value % 256) 8

/-- Get register Idac_heat_8: the body is the single call read8(Idac_heat_8::__address, 8). -/
def getIdac_heat_8 (T : Transport m) : m Nat :=
  T.read8 Idac_heat_8.__address 8

/-! ### REG Idac_heat_7 (BME680.hpp:1372) -/

namespace Idac_heat_7
def __address : Nat := 87
namespace idac_heat
def dflt : Nat := 0b00000000
def mask : Nat := 0b11111111
end idac_heat
end Idac_heat_7

/-- Set register Idac_heat_7: the body is the single call write(Idac_heat_7::__address, value, 8). -/
def setIdac_heat_7 (T : Transport m) (value : Nat) : m Unit :=
  T.write Idac_heat_7.__address (value % 256) 8

/-- Get register Idac_heat_7: the body is the single call read8(Idac_heat_7::__address, 8). -/
def getIdac_heat_7 (T : Transport m) : m Nat :=
  T.read8 Idac_heat_7.__address 8

/-! ### REG Idac_heat_6 (BME680.hpp:1408) -/

namespace Idac_heat_6
def __address : Nat := 86
namespace idac_heat
def dflt : Nat := 0b00000000
def mask : Nat := 0b11111111
end idac_heat
end Idac_heat_6

/-- Set register Idac_heat_6: the body is the single call write(Idac_heat_6::__address, value, 8). -/
def setIdac_heat_6 (T : Transport m) (value : Nat) : m Unit :=
  T.write Idac_heat_6.__address (value % 256) 8

/-- Get register Idac_heat_6: the body is the single call read8(Idac_heat_6::__address, 8). -/
def getIdac_heat_6 (T : Transport m) : m Nat :=
  T.read8 Idac_heat_6.__address 8

/-! ### REG Idac_heat_5 (BME680.hpp:1444) -/

namespace Idac_heat_5
def __address : Nat := 85
namespace idac_heat
def dflt : Nat := 0b00000000
def mask : Nat := 0b11111111
end idac_heat
end Idac_heat_5

/-- Set register Idac_heat_5: the body is the single call write(Idac_heat_5::__address, value, 8). -/
def setIdac_heat_5 (T : Transport m) (value : Nat) : m Unit :=
  T.write Idac_heat_5.__address (value % 256) 8

/-- Get register Idac_heat_5: the body is the single call read8(Idac_heat_5::__address, 8). -/
def getIdac_heat_5 (T : Transport m) : m Nat :=
  T.read8 Idac_heat_5.__address 8

/-! ### REG Idac_heat_4 (BME680.hpp:1480) -/

namespace Idac_heat_4
def __address : Nat := 84
namespace idac_heat
def dflt : Nat := 0b00000000
def mask : Nat := 0b11111111
end idac_heat
end Idac_heat_4

/-- Set register Idac_heat_4: the body is the single call write(Idac_heat_4::__address, value, 8). -/
def setIdac_heat_4 (T : Transport m) (value : Nat) : m Unit :=
  T.write Idac_heat_4.__address (value % 256) 8

/-- Get register Idac_heat_4: the body is the single call read8(Idac_heat_4::__address, 8). -/
def getIdac_heat_4 (T : Transport m) : m Nat :=
  T.read8 Idac_heat_4.__address 8

/-! ### REG Idac_heat_3 (BME680.hpp:1516) -/

namespace Idac_heat_3
def __address : Nat := 83
namespace idac_heat
def dflt : Nat := 0b00000000
def mask : Nat := 0b11111111
end idac_heat
end Idac_heat_3

/-- Set register Idac_heat_3: the body is the single call write(Idac_heat_3::__address, value, 8). -/
def setIdac_heat_3 (T : Transport m) (value : Nat) : m Unit :=
  T.write Idac_heat_3.__address (value % 256) 8

/-- Get register Idac_heat_3: the body is the single call read8(Idac_heat_3::__address, 8). -/
def getIdac_heat_3 (T : Transport m) : m Nat :=
  T.read8 Idac_heat_3.__address 8

/-! ### REG Idac_heat_2 (BME680.hpp:1552) -/

namespace Idac_heat_2
def __address : Nat := 82
namespace idac_heat
def dflt : Nat := 0b00000000
def mask : Nat := 0b11111111
end idac_heat
end Idac_heat_2

/-- Set register Idac_heat_2: the body is the single call write(Idac_heat_2::__address, value, 8). -/
def setIdac_heat_2 (T : Transport m) (value : Nat) : m Unit :=
  T.write Idac_heat_2.__address (value % 256) 8

/-- Get register Idac_heat_2: the body is the single call read8(Idac_heat_2::__address, 8). -/
def getIdac_heat_2 (T : Transport m) : m Nat :=
  T.read8 Idac_heat_2.__address 8

/-! ### REG Idac_heat_1 (BME680.hpp:1588) -/

namespace Idac_heat_1
def __address : Nat := 81
namespace idac_heat
def dflt : Nat := 0b00000000
def mask : Nat := 0b11111111
end idac_heat
end Idac_heat_1

/-- Set register Idac_heat_1: the body is the single call write(Idac_heat_1::__address, value, 8). -/
def setIdac_heat_1 (T : Transport m) (value : Nat) : m Unit :=
  T.write Idac_heat_1.__address (value % 256) 8

/-- Get register Idac_heat_1: the body is the single call read8(Idac_heat_1::__address, 8). -/
def getIdac_heat_1 (T : Transport m) : m Nat :=
  T.read8 Idac_heat_1.__address 8

/-! ### REG Idac_heat_0 (BME680.hpp:1624) -/

namespace Idac_heat_0
def __address : Nat := 80
namespace idac_heat
def dflt : Nat := 0b00000000
def mask : Nat := 0b11111111
end idac_heat
end Idac_heat_0

/-- Set register Idac_heat_0: the body is the single call write(Idac_heat_0::__address, value, 8). -/
def setIdac_heat_0 (T : Transport m) (value : Nat) : m Unit :=
  T.write Idac_heat_0.__address (value % 256) 8

/-- Get register Idac_heat_0: the body is the single call read8(Idac_heat_0::__address, 8). -/
def getIdac_heat_0 (T : Transport m) : m Nat :=
  T.read8 Idac_heat_0.__address 8

/-! ### REG gas_r_lsb (BME680.hpp:1663) -/

namespace gas_r_lsb
def __address : Nat := 43
namespace gas_r
def dflt : Nat := 0b00
def mask : Nat := 0b11000000
end gas_r
namespace gas_valid_r
def dflt : Nat := 0b0
def mask : Nat := 0b00100000
end gas_valid_r
namespace heat_stab_r
def dflt : Nat := 0b0
def mask : Nat := 0b00010000
end heat_stab_r
namespace gas_range_r
def dflt : Nat := 0b0000
def mask : Nat := 0b00001111
end gas_range_r
end gas_r_lsb

/-- Set register gas_r_lsb: the body is the single call write(gas_r_lsb::__address, value, 8). -/
def setgas_r_lsb (T : Transport m) (value : Nat) : m Unit :=
  T.write gas_r_lsb.__address (value % 256) 8

/-- Get register gas_r_lsb: the body is the single call read8(gas_r_lsb::__address, 8). -/
def getgas_r_lsb (T : Transport m) : m Nat :=
  T.read8 gas_r_lsb.__address 8

/-! ### REG gas_r_msb (BME680.hpp:1726) -/

namespace gas_r_msb
def __address : Nat := 42
namespace gas_r
def dflt : Nat := 0b00000000
def mask : Nat := 0b11111111
end gas_r
end gas_r_msb

/-- Set register gas_r_msb: the body is the single call write(gas_r_msb::__address, value, 8). -/
def setgas_r_msb (T : Transport m) (value : Nat) : m Unit :=
  T.write gas_r_msb.__address (value % 256) 8

/-- Get register gas_r_msb: the body is the single call read8(gas_r_msb::__address, 8). -/
def getgas_r_msb (T : Transport m) : m Nat :=
  T.read8 gas_r_msb.__address 8

/-! ### REG hum_lsb (BME680.hpp:1762) -/

namespace hum_lsb
def __address : Nat := 38
namespace hum_lsb_
def dflt : Nat := 0b00000000
def mask : Nat := 0b11111111
end hum_lsb_
end hum_lsb

/-- Set register hum_lsb: the body is the single call write(hum_lsb::__address, value, 8). -/
def sethum_lsb (T : Transport m) (value : Nat) : m Unit :=
  T.write hum_lsb.__address (value % 256) 8

/-- Get register hum_lsb: the body is the single call read8(hum_lsb::__address, 8). -/
def gethum_lsb (T : Transport m) : m Nat :=
  T.read8 hum_lsb.__address 8

/-! ### REG hum_msb (BME680.hpp:1798) -/

namespace hum_msb
def __address : Nat := 37
namespace hum_msb_
def dflt : Nat := 0b10000000
def mask : Nat := 0b11111111
end hum_msb_
end hum_msb

/-- Set register hum_msb: the body is the single call write(hum_msb::__address, value, 8). -/
def sethum_msb (T : Transport m) (value : Nat) : m Unit :=
  T.write hum_msb.__address (value % 256) 8

/-- Get register hum_msb: the body is the single call read8(hum_msb::__address, 8). -/
def gethum_msb (T : Transport m) : m Nat :=
  T.read8 hum_msb.__address 8

/-! ### REG temp_xlsb (BME680.hpp:1834) -/

namespace temp_xlsb
def __address : Nat := 36
namespace temp_xlsb_
def dflt : Nat := 0b0000
def mask : Nat := 0b11110000
end temp_xlsb_
namespace unused_0
def dflt : Nat := 0b0000
def mask : Nat := 0b00001111
end unused_0
end temp_xlsb

/-- Set register temp_xlsb: the body is the single call write(temp_xlsb::__address, value, 8). -/
def settemp_xlsb (T : Transport m) (value : Nat) : m Unit :=
  T.write temp_xlsb.__address (value % 256) 8

/-- Get register temp_xlsb: the body is the single call read8(temp_xlsb::__address, 8). -/
def gettemp_xlsb (T : Transport m) : m Nat :=
  T.read8 temp_xlsb.__address 8

/-! ### REG temp_lsb (BME680.hpp:1879) -/

namespace temp_lsb
def __address : Nat := 35
namespace temp_lsb_
def dflt : Nat := 0b00000000
def mask : Nat := 0b11111111
end temp_lsb_
end temp_lsb

/-- Set register temp_lsb: the body is the single call write(temp_lsb::__address, value, 8). -/
def settemp_lsb (T : Transport m) (value : Nat) : m Unit :=
  T.write temp_lsb.__address (value % 256) 8

/-- Get register temp_lsb: the body is the single call read8(temp_lsb::__address, 8). -/
def gettemp_lsb (T : Transport m) : m Nat :=
  T.read8 temp_lsb.__address 8

/-! ### REG temp_msb (BME680.hpp:1915) -/

namespace temp_msb
def __address : Nat := 34
namespace temp_msb_
def dflt : Nat := 0b10000000
def mask : Nat := 0b11111111
end temp_msb_
end temp_msb

/-- Set register temp_msb: the body is the single call write(temp_msb::__address, value, 8). -/
def settemp_msb (T : Transport m) (value : Nat) : m Unit :=
  T.write temp_msb.__address (value % 256) 8

/-- Get register temp_msb: the body is the single call read8(temp_msb::__address, 8). -/
def gettemp_msb (T : Transport m) : m Nat :=
  T.read8 temp_msb.__address 8

/-! ### REG press_xlsb (BME680.hpp:1951) -/

namespace press_xlsb
def __address : Nat := 33
namespace press_xlsb_
def dflt : Nat := 0b0000
def mask : Nat := 0b11110000
end press_xlsb_
namespace unused_0
def dflt : Nat := 0b0000
def mask : Nat := 0b00001111
end unused_0
end press_xlsb

/-- Set register press_xlsb: the body is the single call write(press_xlsb::__address, value, 8). -/
def setpress_xlsb (T : Transport m) (value : Nat) : m Unit :=
  T.write press_xlsb.__address (value % 256) 8

/-- Get register press_xlsb: the body is the single call read8(press_xlsb::__address, 8). -/
def getpress_xlsb (T : Transport m) : m Nat :=
  T.read8 press_xlsb.__address 8

/-! ### REG press_lsb (BME680.hpp:1996) -/

namespace press_lsb
def __address : Nat := 32
namespace press_lsb_
def dflt : Nat := 0b00000000
def mask : Nat := 0b11111111
end press_lsb_
end press_lsb

/-- Set register press_lsb: the body is the single call write(press_lsb::__address, value, 8). -/
def setpress_lsb (T : Transport m) (value : Nat) : m Unit :=
  T.write press_lsb.__address (value % 256) 8

/-- Get register press_lsb: the body is the single call read8(press_lsb::__address, 8). -/
def getpress_lsb (T : Transport m) : m Nat :=
  T.read8 press_lsb.__address 8

/-! ### REG press_msb (BME680.hpp:2032) -/

namespace press_msb
def __address : Nat := 31
namespace press_msb_
def dflt : Nat := 0b10000000
def mask : Nat := 0b11111111
end press_msb_
end press_msb

/-- Set register press_msb: the body is the single call write(press_msb::__address, value, 8). -/
def setpress_msb (T : Transport m) (value : Nat) : m Unit :=
  T.write press_msb.__address (value % 256) 8

/-- Get register press_msb: the body is the single call read8(press_msb::__address, 8). -/
def getpress_msb (T : Transport m) : m Nat :=
  T.read8 press_msb.__address 8

/-! ### REG meas_status_0 (BME680.hpp:2071) -/

namespace meas_status_0
def __address : Nat := 29
namespace new_data_0
def dflt : Nat := 0b0
def mask : Nat := 0b10000000
end new_data_0
namespace gas_measuring
def dflt : Nat := 0b0
def mask : Nat := 0b01000000
end gas_measuring
namespace measuring
def dflt : Nat := 0b0
def mask : Nat := 0b00100000
end measuring
namespace unused_0
def dflt : Nat := 0b0
def mask : Nat := 0b00010000
end unused_0
namespace gas_meas_index_0
def dflt : Nat := 0b0000
def mask : Nat := 0b00001111
end gas_meas_index_0
end meas_status_0

/-- Set register meas_status_0: the body is the single call write(meas_status_0::__address, value, 8). -/
def setmeas_status_0 (T : Transport m) (value : Nat) : m Unit :=
  T.write meas_status_0.__address (value % 256) 8

/-- Get register meas_status_0: the body is the single call read8(meas_status_0::__address, 8). -/
def getmeas_status_0 (T : Transport m) : m Nat :=
  T.read8 meas_status_0.__address 8
/-! ### The register map as data -/

/-- A field of a register: the name of its nested struct, its `dflt` and `mask` constants and the
named constants the struct declares besides them. -/
structure Field where
  name : String
  dflt : Nat
  mask : Nat
  consts : List (String × Nat)
  deriving DecidableEq, Repr

/-- The 49 registers of the map, in the order the header declares them. -/
inductive Register
  | STATUS | RESET | Id | Config | Ctrl_meas | Ctrl_hum
  | Ctrl_gas_1 | Ctrl_gas_0 | Gas_wait_9 | Gas_wait_8 | Gas_wait_7 | Gas_wait_6
  | Gas_wait_5 | Gas_wait_4 | Gas_wait_3 | Gas_wait_2 | Gas_wait_1 | Gas_wait_0
  | Res_heat_9 | Res_heat_8 | Res_heat_7 | Res_heat_6 | Res_heat_5 | Res_heat_4
  | Res_heat_3 | Res_heat_2 | Res_heat_1 | Res_heat_0 | Idac_heat_9 | Idac_heat_8
  | Idac_heat_7 | Idac_heat_6 | Idac_heat_5 | Idac_heat_4 | Idac_heat_3 | Idac_heat_2
  | Idac_heat_1 | Idac_heat_0 | gas_r_lsb | gas_r_msb | hum_lsb | hum_msb
  | temp_xlsb | temp_lsb | temp_msb | press_xlsb | press_lsb | press_msb
  | meas_status_0
  deriving DecidableEq, Repr

/-- Every register, in declaration order. -/
def allRegisters : List Register :=
  [.STATUS, .RESET, .Id, .Config, .Ctrl_meas, .Ctrl_hum,
   .Ctrl_gas_1, .Ctrl_gas_0, .Gas_wait_9, .Gas_wait_8, .Gas_wait_7, .Gas_wait_6,
   .Gas_wait_5, .Gas_wait_4, .Gas_wait_3, .Gas_wait_2, .Gas_wait_1, .Gas_wait_0,
   .Res_heat_9, .Res_heat_8, .Res_heat_7, .Res_heat_6, .Res_heat_5, .Res_heat_4,
   .Res_heat_3, .Res_heat_2, .Res_heat_1, .Res_heat_0, .Idac_heat_9, .Idac_heat_8,
   .Idac_heat_7, .Idac_heat_6, .Idac_heat_5, .Idac_heat_4, .Idac_heat_3, .Idac_heat_2,
   .Idac_heat_1, .Idac_heat_0, .gas_r_lsb, .gas_r_msb, .hum_lsb, .hum_msb,
   .temp_xlsb, .temp_lsb, .temp_msb, .press_xlsb, .press_lsb, .press_msb,
   .meas_status_0]

/-- The address constant R::__address of register R. -/
def address : Register → Nat
  | .STATUS => STATUS.__address
  | .RESET => RESET.__address
  | .Id => Id.__address
  | .Config => Config.__address
  | .Ctrl_meas => Ctrl_meas.__address
  | .Ctrl_hum => Ctrl_hum.__address
  | .Ctrl_gas_1 => Ctrl_gas_1.__address
  | .Ctrl_gas_0 => Ctrl_gas_0.__address
  | .Gas_wait_9 => Gas_wait_9.__address
  | .Gas_wait_8 => Gas_wait_8.__address
  | .Gas_wait_7 => Gas_wait_7.__address
  | .Gas_wait_6 => Gas_wait_6.__address
  | .Gas_wait_5 => Gas_wait_5.__address
  | .Gas_wait_4 => Gas_wait_4.__address
  | .Gas_wait_3 => Gas_wait_3.__address
  | .Gas_wait_2 => Gas_wait_2.__address
  | .Gas_wait_1 => Gas_wait_1.__address
  | .Gas_wait_0 => Gas_wait_0.__address
  | .Res_heat_9 => Res_heat_9.__address
  | .Res_heat_8 => Res_heat_8.__address
  | .Res_heat_7 => Res_heat_7.__address
  | .Res_heat_6 => Res_heat_6.__address
  | .Res_heat_5 => Res_heat_5.__address
  | .Res_heat_4 => Res_heat_4.__address
  | .Res_heat_3 => Res_heat_3.__address
  | .Res_heat_2 => Res_heat_2.__address
  | .Res_heat_1 => Res_heat_1.__address
  | .Res_heat_0 => Res_heat_0.__address
  | .Idac_heat_9 => Idac_heat_9.__address
  | .Idac_heat_8 => Idac_heat_8.__address
  | .Idac_heat_7 => Idac_heat_7.__address
  | .Idac_heat_6 => Idac_heat_6.__address
  | .Idac_heat_5 => Idac_heat_5.__address
  | .Idac_heat_4 => Idac_heat_4.__address
  | .Idac_heat_3 => Idac_heat_3.__address
  | .Idac_heat_2 => Idac_heat_2.__address
  | .Idac_heat_1 => Idac_heat_1.__address
  | .Idac_heat_0 => Idac_heat_0.__address
  | .gas_r_lsb => gas_r_lsb.__address
  | .gas_r_msb => gas_r_msb.__address
  | .hum_lsb => hum_lsb.__address
  | .hum_msb => hum_msb.__address
  | .temp_xlsb => temp_xlsb.__address
  | .temp_lsb => temp_lsb.__address
  | .temp_msb => temp_msb.__address
  | .press_xlsb => press_xlsb.__address
  | .press_lsb => press_lsb.__address
  | .press_msb => press_msb.__address
  | .meas_status_0 => meas_status_0.__address

/-- The accessor set<R>: dispatches to the setter the header defines for R. -/
def setRegister (r : Register) (T : Transport m) (value : Nat) : m Unit :=
  match r with
  | .STATUS => setSTATUS T value
  | .RESET => setRESET T value
  | .Id => setId T value
  | .Config => setConfig T value
  | .Ctrl_meas => setCtrl_meas T value
  | .Ctrl_hum => setCtrl_hum T value
  | .Ctrl_gas_1 => setCtrl_gas_1 T value
  | .Ctrl_gas_0 => setCtrl_gas_0 T value
  | .Gas_wait_9 => setGas_wait_9 T value
  | .Gas_wait_8 => setGas_wait_8 T value
  | .Gas_wait_7 => setGas_wait_7 T value
  | .Gas_wait_6 => setGas_wait_6 T value
  | .Gas_wait_5 => setGas_wait_5 T value
  | .Gas_wait_4 => setGas_wait_4 T value
  | .Gas_wait_3 => setGas_wait_3 T value
  | .Gas_wait_2 => setGas_wait_2 T value
  | .Gas_wait_1 => setGas_wait_1 T value
  | .Gas_wait_0 => setGas_wait_0 T value
  | .Res_heat_9 => setRes_heat_9 T value
  | .Res_heat_8 => setRes_heat_8 T value
  | .Res_heat_7 => setRes_heat_7 T value
  | .Res_heat_6 => setRes_heat_6 T value
  | .Res_heat_5 => setRes_heat_5 T value
  | .Res_heat_4 => setRes_heat_4 T value
  | .Res_heat_3 => setRes_heat_3 T value
  | .Res_heat_2 => setRes_heat_2 T value
  | .Res_heat_1 => setRes_heat_1 T value
  | .Res_heat_0 => setRes_heat_0 T value
  | .Idac_heat_9 => setIdac_heat_9 T value
  | .Idac_heat_8 => setIdac_heat_8 T value
  | .Idac_heat_7 => setIdac_heat_7 T value
  | .Idac_heat_6 => setIdac_heat_6 T value
  | .Idac_heat_5 => setIdac_heat_5 T value
  | .Idac_heat_4 => setIdac_heat_4 T value
  | .Idac_heat_3 => setIdac_heat_3 T value
  | .Idac_heat_2 => setIdac_heat_2 T value
  | .Idac_heat_1 => setIdac_heat_1 T value
  | .Idac_heat_0 => setIdac_heat_0 T value
  | .gas_r_lsb => setgas_r_lsb T value
  | .gas_r_msb => setgas_r_msb T value
  | .hum_lsb => sethum_lsb T value
  | .hum_msb => sethum_msb T value
  | .temp_xlsb => settemp_xlsb T value
  | .temp_lsb => settemp_lsb T value
  | .temp_msb => settemp_msb T value
  | .press_xlsb => setpress_xlsb T value
  | .press_lsb => setpress_lsb T value
  | .press_msb => setpress_msb T value
  | .meas_status_0 => setmeas_status_0 T value

/-- The accessor get<R>: dispatches to the getter the header defines for R. -/
def getRegister (r : Register) (T : Transport m) : m Nat :=
  match r with
  | .STATUS => getSTATUS T
  | .RESET => getRESET T
  | .Id => getId T
  | .Config => getConfig T
  | .Ctrl_meas => getCtrl_meas T
  | .Ctrl_hum => getCtrl_hum T
  | .Ctrl_gas_1 => getCtrl_gas_1 T
  | .Ctrl_gas_0 => getCtrl_gas_0 T
  | .Gas_wait_9 => getGas_wait_9 T
  | .Gas_wait_8 => getGas_wait_8 T
  | .Gas_wait_7 => getGas_wait_7 T
  | .Gas_wait_6 => getGas_wait_6 T
  | .Gas_wait_5 => getGas_wait_5 T
  | .Gas_wait_4 => getGas_wait_4 T
  | .Gas_wait_3 => getGas_wait_3 T
  | .Gas_wait_2 => getGas_wait_2 T
  | .Gas_wait_1 => getGas_wait_1 T
  | .Gas_wait_0 => getGas_wait_0 T
  | .Res_heat_9 => getRes_heat_9 T
  | .Res_heat_8 => getRes_heat_8 T
  | .Res_heat_7 => getRes_heat_7 T
  | .Res_heat_6 => getRes_heat_6 T
  | .Res_heat_5 => getRes_heat_5 T
  | .Res_heat_4 => getRes_heat_4 T
  | .Res_heat_3 => getRes_heat_3 T
  | .Res_heat_2 => getRes_heat_2 T
  | .Res_heat_1 => getRes_heat_1 T
  | .Res_heat_0 => getRes_heat_0 T
  | .Idac_heat_9 => getIdac_heat_9 T
  | .Idac_heat_8 => getIdac_heat_8 T
  | .Idac_heat_7 => getIdac_heat_7 T
  | .Idac_heat_6 => getIdac_heat_6 T
  | .Idac_heat_5 => getIdac_heat_5 T
  | .Idac_heat_4 => getIdac_heat_4 T
  | .Idac_heat_3 => getIdac_heat_3 T
  | .Idac_heat_2 => getIdac_heat_2 T
  | .Idac_heat_1 => getIdac_heat_1 T
  | .Idac_heat_0 => getIdac_heat_0 T
  | .gas_r_lsb => getgas_r_lsb T
  | .gas_r_msb => getgas_r_msb T
  | .hum_lsb => gethum_lsb T
  | .hum_msb => gethum_msb T
  | .temp_xlsb => gettemp_xlsb T
  | .temp_lsb => gettemp_lsb T
  | .temp_msb => gettemp_msb T
  | .press_xlsb => getpress_xlsb T
  | .press_lsb => getpress_lsb T
  | .press_msb => getpress_msb T
  | .meas_status_0 => getmeas_status_0 T

/-- The field layout of each register: one entry per nested field struct, in declaration
order, carrying its dflt and mask constants and its named constants. -/
def fields : Register → List Field
  | .STATUS => [
      ⟨"unused_0", STATUS.unused_0.dflt, STATUS.unused_0.mask, []⟩,
      ⟨"spi_mem_page", STATUS.spi_mem_page.dflt, STATUS.spi_mem_page.mask, []⟩,
      ⟨"unused_1", STATUS.unused_1.dflt, STATUS.unused_1.mask, []⟩]
  | .RESET => [
      ⟨"Reset", RESET.Reset.dflt, RESET.Reset.mask, [("RESET", RESET.Reset.RESET)]⟩]
  | .Id => [
      ⟨"chip_id", Id.chip_id.dflt, Id.chip_id.mask, []⟩]
  | .Config => [
      ⟨"unused_0", Config.unused_0.dflt, Config.unused_0.mask, []⟩,
      ⟨"filter", Config.filter.dflt, Config.filter.mask, []⟩,
      ⟨"unused_1", Config.unused_1.dflt, Config.unused_1.mask, []⟩,
      ⟨"spi_3w_en", Config.spi_3w_en.dflt, Config.spi_3w_en.mask, []⟩]
  | .Ctrl_meas => [
      ⟨"osrs_t", Ctrl_meas.osrs_t.dflt, Ctrl_meas.osrs_t.mask,
        [("SKIPPED", Ctrl_meas.osrs_t.SKIPPED), ("X1", Ctrl_meas.osrs_t.X1),
         ("X2", Ctrl_meas.osrs_t.X2), ("X4", Ctrl_meas.osrs_t.X4),
         ("X8", Ctrl_meas.osrs_t.X8), ("X16", Ctrl_meas.osrs_t.X16)]⟩,
      ⟨"osrs_p", Ctrl_meas.osrs_p.dflt, Ctrl_meas.osrs_p.mask,
        [("SKIPPED", Ctrl_meas.osrs_p.SKIPPED), ("X1", Ctrl_meas.osrs_p.X1),
         ("X2", Ctrl_meas.osrs_p.X2), ("X4", Ctrl_meas.osrs_p.X4),
         ("X8", Ctrl_meas.osrs_p.X8), ("X16", Ctrl_meas.osrs_p.X16)]⟩,
      ⟨"mode", Ctrl_meas.mode.dflt, Ctrl_meas.mode.mask,
        [("SLEEP", Ctrl_meas.mode.SLEEP), ("FORCED", Ctrl_meas.mode.FORCED)]⟩]
  | .Ctrl_hum => [
      ⟨"unused_0", Ctrl_hum.unused_0.dflt, Ctrl_hum.unused_0.mask, []⟩,
      ⟨"spi_3w_int_en", Ctrl_hum.spi_3w_int_en.dflt, Ctrl_hum.spi_3w_int_en.mask, []⟩,
      ⟨"unused_1", Ctrl_hum.unused_1.dflt, Ctrl_hum.unused_1.mask, []⟩,
      ⟨"osrs_h", Ctrl_hum.osrs_h.dflt, Ctrl_hum.osrs_h.mask,
        [("SKIPPED", Ctrl_hum.osrs_h.SKIPPED), ("X1", Ctrl_hum.osrs_h.X1),
         ("X2", Ctrl_hum.osrs_h.X2), ("X4", Ctrl_hum.osrs_h.X4),
         ("X8", Ctrl_hum.osrs_h.X8), ("X16", Ctrl_hum.osrs_h.X16)]⟩]
  | .Ctrl_gas_1 => [
      ⟨"unused_0", Ctrl_gas_1.unused_0.dflt, Ctrl_gas_1.unused_0.mask, []⟩,
      ⟨"run_gas", Ctrl_gas_1.run_gas.dflt, Ctrl_gas_1.run_gas.mask, []⟩,
      ⟨"nb_conv", Ctrl_gas_1.nb_conv.dflt, Ctrl_gas_1.nb_conv.mask, []⟩]
  | .Ctrl_gas_0 => [
      ⟨"unused_0", Ctrl_gas_0.unused_0.dflt, Ctrl_gas_0.unused_0.mask, []⟩,
      ⟨"heat_off", Ctrl_gas_0.heat_off.dflt, Ctrl_gas_0.heat_off.mask,
        [("HEAT_OFF", Ctrl_gas_0.heat_off.HEAT_OFF), ("HEAT_ON", Ctrl_gas_0.heat_off.HEAT_ON)]⟩,
      ⟨"unused_1", Ctrl_gas_0.unused_1.dflt, Ctrl_gas_0.unused_1.mask, []⟩]
  | .Gas_wait_9 => [
      ⟨"gas_wait_mult", Gas_wait_9.gas_wait_mult.dflt, Gas_wait_9.gas_wait_mult.mask,
        [("X1", Gas_wait_9.gas_wait_mult.X1), ("X4", Gas_wait_9.gas_wait_mult.X4),
         ("X16", Gas_wait_9.gas_wait_mult.X16), ("X64", Gas_wait_9.gas_wait_mult.X64)]⟩,
      ⟨"gas_wait_val", Gas_wait_9.gas_wait_val.dflt, Gas_wait_9.gas_wait_val.mask, []⟩]
  | .Gas_wait_8 => [
      ⟨"gas_wait_mult", Gas_wait_8.gas_wait_mult.dflt, Gas_wait_8.gas_wait_mult.mask,
        [("X1", Gas_wait_8.gas_wait_mult.X1), ("X4", Gas_wait_8.gas_wait_mult.X4),
         ("X16", Gas_wait_8.gas_wait_mult.X16), ("X64", Gas_wait_8.gas_wait_mult.X64)]⟩,
      ⟨"gas_wait_val", Gas_wait_8.gas_wait_val.dflt, Gas_wait_8.gas_wait_val.mask, []⟩]
  | .Gas_wait_7 => [
      ⟨"gas_wait_mult", Gas_wait_7.gas_wait_mult.dflt, Gas_wait_7.gas_wait_mult.mask,
        [("X1", Gas_wait_7.gas_wait_mult.X1), ("X4", Gas_wait_7.gas_wait_mult.X4),
         ("X16", Gas_wait_7.gas_wait_mult.X16), ("X64", Gas_wait_7.gas_wait_mult.X64)]⟩,
      ⟨"gas_wait_val", Gas_wait_7.gas_wait_val.dflt, Gas_wait_7.gas_wait_val.mask, []⟩]
  | .Gas_wait_6 => [
      ⟨"gas_wait_mult", Gas_wait_6.gas_wait_mult.dflt, Gas_wait_6.gas_wait_mult.mask,
        [("X1", Gas_wait_6.gas_wait_mult.X1), ("X4", Gas_wait_6.gas_wait_mult.X4),
         ("X16", Gas_wait_6.gas_wait_mult.X16), ("X64", Gas_wait_6.gas_wait_mult.X64)]⟩,
      ⟨"gas_wait_val", Gas_wait_6.gas_wait_val.dflt, Gas_wait_6.gas_wait_val.mask, []⟩]
  | .Gas_wait_5 => [
      ⟨"gas_wait_mult", Gas_wait_5.gas_wait_mult.dflt, Gas_wait_5.gas_wait_mult.mask,
        [("X1", Gas_wait_5.gas_wait_mult.X1), ("X4", Gas_wait_5.gas_wait_mult.X4),
         ("X16", Gas_wait_5.gas_wait_mult.X16), ("X64", Gas_wait_5.gas_wait_mult.X64)]⟩,
      ⟨"gas_wait_val", Gas_wait_5.gas_wait_val.dflt, Gas_wait_5.gas_wait_val.mask, []⟩]
  | .Gas_wait_4 => [
      ⟨"gas_wait_mult", Gas_wait_4.gas_wait_mult.dflt, Gas_wait_4.gas_wait_mult.mask,
        [("X1", Gas_wait_4.gas_wait_mult.X1), ("X4", Gas_wait_4.gas_wait_mult.X4),
         ("X16", Gas_wait_4.gas_wait_mult.X16), ("X64", Gas_wait_4.gas_wait_mult.X64)]⟩,
      ⟨"gas_wait_val", Gas_wait_4.gas_wait_val.dflt, Gas_wait_4.gas_wait_val.mask, []⟩]
  | .Gas_wait_3 => [
      ⟨"gas_wait_mult", Gas_wait_3.gas_wait_mult.dflt, Gas_wait_3.gas_wait_mult.mask,
        [("X1", Gas_wait_3.gas_wait_mult.X1), ("X4", Gas_wait_3.gas_wait_mult.X4),
         ("X16", Gas_wait_3.gas_wait_mult.X16), ("X64", Gas_wait_3.gas_wait_mult.X64)]⟩,
      ⟨"gas_wait_val", Gas_wait_3.gas_wait_val.dflt, Gas_wait_3.gas_wait_val.mask, []⟩]
  | .Gas_wait_2 => [
      ⟨"gas_wait_mult", Gas_wait_2.gas_wait_mult.dflt, Gas_wait_2.gas_wait_mult.mask,
        [("X1", Gas_wait_2.gas_wait_mult.X1), ("X4", Gas_wait_2.gas_wait_mult.X4),
         ("X16", Gas_wait_2.gas_wait_mult.X16), ("X64", Gas_wait_2.gas_wait_mult.X64)]⟩,
      ⟨"gas_wait_val", Gas_wait_2.gas_wait_val.dflt, Gas_wait_2.gas_wait_val.mask, []⟩]
  | .Gas_wait_1 => [
      ⟨"gas_wait_mult", Gas_wait_1.gas_wait_mult.dflt, Gas_wait_1.gas_wait_mult.mask,
        [("X1", Gas_wait_1.gas_wait_mult.X1), ("X4", Gas_wait_1.gas_wait_mult.X4),
         ("X16", Gas_wait_1.gas_wait_mult.X16), ("X64", Gas_wait_1.gas_wait_mult.X64)]⟩,
      ⟨"gas_wait_val", Gas_wait_1.gas_wait_val.dflt, Gas_wait_1.gas_wait_val.mask, []⟩]
  | .Gas_wait_0 => [
      ⟨"gas_wait_mult", Gas_wait_0.gas_wait_mult.dflt, Gas_wait_0.gas_wait_mult.mask,
        [("X1", Gas_wait_0.gas_wait_mult.X1), ("X4", Gas_wait_0.gas_wait_mult.X4),
         ("X16", Gas_wait_0.gas_wait_mult.X16), ("X64", Gas_wait_0.gas_wait_mult.X64)]⟩,
      ⟨"gas_wait_val", Gas_wait_0.gas_wait_val.dflt, Gas_wait_0.gas_wait_val.mask, []⟩]
  | .Res_heat_9 => [
      ⟨"res_heat", Res_heat_9.res_heat.dflt, Res_heat_9.res_heat.mask, []⟩]
  | .Res_heat_8 => [
      ⟨"res_heat", Res_heat_8.res_heat.dflt, Res_heat_8.res_heat.mask, []⟩]
  | .Res_heat_7 => [
      ⟨"res_heat", Res_heat_7.res_heat.dflt, Res_heat_7.res_heat.mask, []⟩]
  | .Res_heat_6 => [
      ⟨"res_heat", Res_heat_6.res_heat.dflt, Res_heat_6.res_heat.mask, []⟩]
  | .Res_heat_5 => [
      ⟨"res_heat", Res_heat_5.res_heat.dflt, Res_heat_5.res_heat.mask, []⟩]
  | .Res_heat_4 => [
      ⟨"res_heat", Res_heat_4.res_heat.dflt, Res_heat_4.res_heat.mask, []⟩]
  | .Res_heat_3 => [
      ⟨"res_heat", Res_heat_3.res_heat.dflt, Res_heat_3.res_heat.mask, []⟩]
  | .Res_heat_2 => [
      ⟨"res_heat", Res_heat_2.res_heat.dflt, Res_heat_2.res_heat.mask, []⟩]
  | .Res_heat_1 => [
      ⟨"res_heat", Res_heat_1.res_heat.dflt, Res_heat_1.res_heat.mask, []⟩]
  | .Res_heat_0 => [
      ⟨"res_heat", Res_heat_0.res_heat.dflt, Res_heat_0.res_heat.mask, []⟩]
  | .Idac_heat_9 => [
      ⟨"idac_heat", Idac_heat_9.idac_heat.dflt, Idac_heat_9.idac_heat.mask, []⟩]
  | .Idac_heat_8 => [
      ⟨"idac_heat", Idac_heat_8.idac_heat.dflt, Idac_heat_8.idac_heat.mask, []⟩]
  | .Idac_heat_7 => [
      ⟨"idac_heat", Idac_heat_7.idac_heat.dflt, Idac_heat_7.idac_heat.mask, []⟩]
  | .Idac_heat_6 => [
      ⟨"idac_heat", Idac_heat_6.idac_heat.dflt, Idac_heat_6.idac_heat.mask, []⟩]
  | .Idac_heat_5 => [
      ⟨"idac_heat", Idac_heat_5.idac_heat.dflt, Idac_heat_5.idac_heat.mask, []⟩]
  | .Idac_heat_4 => [
      ⟨"idac_heat", Idac_heat_4.idac_heat.dflt, Idac_heat_4.idac_heat.mask, []⟩]
  | .Idac_heat_3 => [
      ⟨"idac_heat", Idac_heat_3.idac_heat.dflt, Idac_heat_3.idac_heat.mask, []⟩]
  | .Idac_heat_2 => [
      ⟨"idac_heat", Idac_heat_2.idac_heat.dflt, Idac_heat_2.idac_heat.mask, []⟩]
  | .Idac_heat_1 => [
      ⟨"idac_heat", Idac_heat_1.idac_heat.dflt, Idac_heat_1.idac_heat.mask, []⟩]
  | .Idac_heat_0 => [
      ⟨"idac_heat", Idac_heat_0.idac_heat.dflt, Idac_heat_0.idac_heat.mask, []⟩]
  | .gas_r_lsb => [
      ⟨"gas_r", gas_r_lsb.gas_r.dflt, gas_r_lsb.gas_r.mask, []⟩,
      ⟨"gas_valid_r", gas_r_lsb.gas_valid_r.dflt, gas_r_lsb.gas_valid_r.mask, []⟩,
      ⟨"heat_stab_r", gas_r_lsb.heat_stab_r.dflt, gas_r_lsb.heat_stab_r.mask, []⟩,
      ⟨"gas_range_r", gas_r_lsb.gas_range_r.dflt, gas_r_lsb.gas_range_r.mask, []⟩]
  | .gas_r_msb => [
      ⟨"gas_r", gas_r_msb.gas_r.dflt, gas_r_msb.gas_r.mask, []⟩]
  | .hum_lsb => [
      ⟨"hum_lsb_", hum_lsb.hum_lsb_.dflt, hum_lsb.hum_lsb_.mask, []⟩]
  | .hum_msb => [
      ⟨"hum_msb_", hum_msb.hum_msb_.dflt, hum_msb.hum_msb_.mask, []⟩]
  | .temp_xlsb => [
      ⟨"temp_xlsb_", temp_xlsb.temp_xlsb_.dflt, temp_xlsb.temp_xlsb_.mask, []⟩,
      ⟨"unused_0", temp_xlsb.unused_0.dflt, temp_xlsb.unused_0.mask, []⟩]
  | .temp_lsb => [
      ⟨"temp_lsb_", temp_lsb.temp_lsb_.dflt, temp_lsb.temp_lsb_.mask, []⟩]
  | .temp_msb => [
      ⟨"temp_msb_", temp_msb.temp_msb_.dflt, temp_msb.temp_msb_.mask, []⟩]
  | .press_xlsb => [
      ⟨"press_xlsb_", press_xlsb.press_xlsb_.dflt, press_xlsb.press_xlsb_.mask, []⟩,
      ⟨"unused_0", press_xlsb.unused_0.dflt, press_xlsb.unused_0.mask, []⟩]
  | .press_lsb => [
      ⟨"press_lsb_", press_lsb.press_lsb_.dflt, press_lsb.press_lsb_.mask, []⟩]
  | .press_msb => [
      ⟨"press_msb_", press_msb.press_msb_.dflt, press_msb.press_msb_.mask, []⟩]
  | .meas_status_0 => [
      ⟨"new_data_0", meas_status_0.new_data_0.dflt, meas_status_0.new_data_0.mask, []⟩,
      ⟨"gas_measuring", meas_status_0.gas_measuring.dflt, meas_status_0.gas_measuring.mask, []⟩,
      ⟨"measuring", meas_status_0.measuring.dflt, meas_status_0.measuring.mask, []⟩,
      ⟨"unused_0", meas_status_0.unused_0.dflt, meas_status_0.unused_0.mask, []⟩,
      ⟨"gas_meas_index_0", meas_status_0.gas_meas_index_0.dflt, meas_status_0.gas_meas_index_0.mask, []⟩]
/-! ### Transports the accessors are run against -/

/-- A call of one of the two transport primitives, with its arguments. -/
inductive Call
  | read8 (address n : Nat)
  | write (address value n : Nat)
  deriving DecidableEq, Repr

/-- A transport that records every call it receives, in order, and answers a `read8` with the
byte `answer` assigns to the calls received so far (the `read8` being answered included), so
that the device behind it may answer any way it likes, also differently from call to call. -/
def recorder (answer : List Call → Nat) : Transport (StateM (List Call)) where
  read8 address n := fun log =>
    (answer (log ++ [Call.read8 address n]), log ++ [Call.read8 address n])
  write address value n := fun log => ((), log ++ [Call.write address value n])

/-- Modelled from the spec: the mock transport of the round-trip test, which "simply stores the
last written byte per address". The header declares `read8` and `write` pure virtual and holds
no implementation of them; the store maps an address to the byte last written there. -/
def fakeTransport : Transport (StateM (Nat → Nat)) where
  read8 address _ := fun store => (store address, store)
  write address value _ := fun store =>
    ((), fun a => if a = address then value else store a)

/-- The sequence `set<R>(value)` immediately followed by `get<R>()`. -/
def setThenGet [Monad m] (r : Register) (T : Transport m) (value : Nat) : m Nat := do
  setRegister r T value
  getRegister r T

/-! ### Bit counting on masks -/

/-- Number of set bits among the 8 bits of a byte. -/
def popcount (b : Nat) : Nat :=
  ((List.range 8).filter (fun i => b.testBit i)).length

/-- Number of clear bits below the lowest set bit of a byte (8 for the zero byte). -/
def trailingZeros (b : Nat) : Nat :=
  ((List.range 8).takeWhile (fun i => !b.testBit i)).length

/-- The fields of a register that own bit `i`. -/
def ownersOfBit (r : Register) (i : Nat) : List Field :=
  (fields r).filter (fun f => f.mask.testBit i)

/-- Bitwise OR of the masks of a list of fields. -/
def unionOfMasks (fs : List Field) : Nat :=
  fs.foldl (fun acc f => acc ||| f.mask) 0

/-- Every named constant of the map, with the mask of the field declaring it. -/
def namedConstants : List (Nat × Nat) :=
  allRegisters.flatMap (fun r => (fields r).flatMap (fun f => f.consts.map (fun c => (c.2, f.mask))))


/-- The fields that declare named constants, each with its register and the names declared. -/
def fieldsWithConstants : List (Register × String × List String) :=
  allRegisters.flatMap (fun r =>
    ((fields r).filter (fun f => !f.consts.isEmpty)).map
      (fun f => (r, f.name, f.consts.map (fun c => c.1))))

/-! ### The heater set point families -/

/-- The register Gas_wait_i of heater set point i. -/
def Gas_wait : Fin 10 → Register
  | 0 => .Gas_wait_0 | 1 => .Gas_wait_1 | 2 => .Gas_wait_2 | 3 => .Gas_wait_3
  | 4 => .Gas_wait_4 | 5 => .Gas_wait_5 | 6 => .Gas_wait_6 | 7 => .Gas_wait_7
  | 8 => .Gas_wait_8 | 9 => .Gas_wait_9

/-- The register Res_heat_i of heater set point i. -/
def Res_heat : Fin 10 → Register
  | 0 => .Res_heat_0 | 1 => .Res_heat_1 | 2 => .Res_heat_2 | 3 => .Res_heat_3
  | 4 => .Res_heat_4 | 5 => .Res_heat_5 | 6 => .Res_heat_6 | 7 => .Res_heat_7
  | 8 => .Res_heat_8 | 9 => .Res_heat_9

/-- The register Idac_heat_i of heater set point i. -/
def Idac_heat : Fin 10 → Register
  | 0 => .Idac_heat_0 | 1 => .Idac_heat_1 | 2 => .Idac_heat_2 | 3 => .Idac_heat_3
  | 4 => .Idac_heat_4 | 5 => .Idac_heat_5 | 6 => .Idac_heat_6 | 7 => .Idac_heat_7
  | 8 => .Idac_heat_8 | 9 => .Idac_heat_9

/-! ### Bytes and fields -/

/-- The field of a register whose nested struct has the given name. -/
def fieldNamed (r : Register) (name : String) : Option Field :=
  (fields r).find? (fun f => f.name == name)

/-- The parts a register byte splits into: `b & mask` for each field, in declaration order. -/
def splitByte (r : Register) (b : Nat) : List Nat :=
  (fields r).map (fun f => b &&& f.mask)

/-- Modelled from the spec: the helper `get<Register>_default_byte_with(field=value)` of the
end-to-end scenario, which the header does not define. It assembles the register byte from the
`dflt` of every field, with the named field holding `value` instead, each placed at the
position of its field. -/
def defaultByteWith (r : Register) (name : String) (value : Nat) : Nat :=
  (fields r).foldl
    (fun acc f => acc ||| ((if f.name == name then value else f.dflt) <<< trailingZeros f.mask)) 0

/-! ### Failing transports and repeated reads -/

/-- A recording transport whose primitives may fail: it records every call it receives and
lets `outcome` decide, from the calls received so far, whether the call fails with an error or
succeeds (a `read8` then answers the byte given, a `write` returns nothing). A failed call
stays recorded. -/
def faultyRecorder {ε : Type} (outcome : List Call → Except ε Nat) :
    Transport (ExceptT ε (StateM (List Call))) where
  read8 address n := ExceptT.mk (fun log =>
    (outcome (log ++ [Call.read8 address n]), log ++ [Call.read8 address n]))
  write address value n := ExceptT.mk (fun log =>
    ((outcome (log ++ [Call.write address value n])).map (fun _ => ()),
      log ++ [Call.write address value n]))

/-- The results of `n` successive calls of `get<R>()`, first call first. -/
def getRepeatedly [Monad m] (r : Register) (T : Transport m) : Nat → m (List Nat)
  | 0 => pure []
  | n + 1 => do
    let b ← getRegister r T
    let bs ← getRepeatedly r T n
    pure (b :: bs)

/-! ### Sequences of writes -/

/-- The sequence `set<R>(x)` followed by `set<Q>(y)`. -/
def setThenSet [Monad m] (r q : Register) (T : Transport m) (x y : Nat) : m Unit := do
  setRegister r T x
  setRegister q T y

/-! ## Accessors are single transport calls -/

/-- On any transport, set<R> is the one call write(R::__address, value mod 2^8, 8). -/
theorem setRegister_eq_write (r : Register) (T : Transport m) (value : Nat) :
    setRegister r T value = T.write (address r) (value % 256) 8 := by
  cases r <;> rfl

/-- On any transport, get<R> is the one call read8(R::__address, 8). -/
theorem getRegister_eq_read8 (r : Register) (T : Transport m) :
    getRegister r T = T.read8 (address r) 8 := by
  cases r <;> rfl

/-- The list of registers holds every register. -/
theorem mem_allRegisters (r : Register) : r ∈ allRegisters := by
  cases r <;> decide

/-- C1: for every register R and every byte v, set<R>(v) is the call write(R::__address, v, 8)
on any transport, and on the recording transport it adds exactly that one call to the calls
received so far: v is passed verbatim and no read8 is issued before or after it. -/
theorem set_issues_exactly_one_write (r : Register) (v : Nat) (hv : v < 256) :
    (∀ (μ : Type → Type) (T : Transport μ), setRegister r T v = T.write (address r) v 8) ∧
    ∀ (answer : List Call → Nat) (log : List Call),
      (setRegister r (recorder answer) v).run log
        = ((), log ++ [Call.write (address r) v 8]) := by
  have hmod : v % 256 = v := Nat.mod_eq_of_lt hv
  refine ⟨fun μ T => ?_, fun answer log => ?_⟩
  · rw [setRegister_eq_write, hmod]
  · rw [setRegister_eq_write, hmod]
    rfl

/-- C1 at register Ctrl_hum (address 114) and the byte 0x02, after one earlier call. -/
theorem set_issues_exactly_one_write_witness :
    (2 : Nat) < 256 ∧
    (setRegister Register.Ctrl_hum (recorder (fun _ => 0)) 2).run [Call.read8 29 8]
      = ((), [Call.read8 29 8, Call.write 114 2 8]) :=
  ⟨by decide,
   (set_issues_exactly_one_write Register.Ctrl_hum 2 (by decide)).2 (fun _ => 0) [Call.read8 29 8]⟩

/-- C2: for every register R, get<R>() is the call read8(R::__address, 8) on any transport, and
on the recording transport it adds exactly that one call (no write) to the calls received so
far and returns the byte the transport answered it with, unchanged. -/
theorem get_issues_exactly_one_read8 (r : Register) :
    (∀ (μ : Type → Type) (T : Transport μ), getRegister r T = T.read8 (address r) 8) ∧
    ∀ (answer : List Call → Nat) (log : List Call),
      (getRegister r (recorder answer)).run log
        = (answer (log ++ [Call.read8 (address r) 8]), log ++ [Call.read8 (address r) 8]) := by
  refine ⟨fun μ T => getRegister_eq_read8 r T, fun answer log => ?_⟩
  rw [getRegister_eq_read8]
  rfl

/-- C3: on the store-last-byte transport, for every register R, every initial store and every
byte v, set<R>(v) immediately followed by get<R>() returns v. -/
theorem set_then_get_returns_written (r : Register) (store : Nat → Nat) (v : Nat)
    (hv : v < 256) :
    ((setThenGet r fakeTransport v).run store).1 = v := by
  have hmod : v % 256 = v := Nat.mod_eq_of_lt hv
  simp [setThenGet, setRegister_eq_write, getRegister_eq_read8, fakeTransport, hmod,
    StateT.run, bind, StateT.bind]

/-- C3 at register RESET, the byte 0xB6 and a store holding 7 everywhere. -/
theorem set_then_get_returns_written_witness :
    (182 : Nat) < 256 ∧ ((setThenGet Register.RESET fakeTransport 182).run (fun _ => 7)).1 = 182 :=
  ⟨by decide, set_then_get_returns_written Register.RESET (fun _ => 7) 182 (by decide)⟩


/-! ## The address map -/

/-- Two registers with the same address are the same register. -/
theorem address_injective (r q : Register) (h : address r = address q) : r = q := by
  cases r <;> cases q <;> first | rfl | exact absurd h (by decide)

/-- C4: the map has 49 registers, the address constant of every register lies in 0..255, and
two different registers have different address constants. -/
theorem address_in_range_and_unique (r q : Register) (hrq : r ≠ q) :
    allRegisters.length = 49 ∧ r ∈ allRegisters ∧ q ∈ allRegisters ∧
    address r < 256 ∧ address q < 256 ∧ address r ≠ address q := by
  refine ⟨by decide, mem_allRegisters r, mem_allRegisters q, ?_, ?_, ?_⟩
  · cases r <;> decide
  · cases q <;> decide
  · exact fun h => hrq (address_injective r q h)

/-- C4 at the registers with the largest and the smallest address, RESET and meas_status_0. -/
theorem address_in_range_and_unique_witness :
    Register.RESET ≠ Register.meas_status_0 ∧
    address Register.RESET < 256 ∧ address Register.meas_status_0 < 256 ∧
    address Register.RESET ≠ address Register.meas_status_0 :=
  have h := address_in_range_and_unique Register.RESET Register.meas_status_0 (by decide)
  ⟨by decide, h.2.2.2.1, h.2.2.2.2.1, h.2.2.2.2.2⟩

/-! ## Field masks -/

/-- The masks of the fields of a register are pairwise disjoint and their OR is 0xFF. -/
theorem masks_disjoint_and_cover (r : Register) :
    (fields r).Pairwise (fun f g => f.mask &&& g.mask = 0) ∧ unionOfMasks (fields r) = 0xFF := by
  cases r <;> decide

/-- Each of the 8 bits of a register is owned by exactly one of its fields. -/
theorem bit_has_one_owner (r : Register) (i : Fin 8) : (ownersOfBit r i.val).length = 1 := by
  revert i
  cases r <;> decide

/-- C5: for every register, the masks of its fields (the unused_* fillers included) are pairwise
disjoint, their bitwise OR is 0xFF, and each of the bits 0..7 belongs to exactly one field. -/
theorem masks_partition_the_byte (r : Register) (i : Nat) (hi : i < 8) :
    (fields r).Pairwise (fun f g => f.mask &&& g.mask = 0) ∧
    unionOfMasks (fields r) = 0xFF ∧
    (ownersOfBit r i).length = 1 :=
  ⟨(masks_disjoint_and_cover r).1, (masks_disjoint_and_cover r).2, bit_has_one_owner r ⟨i, hi⟩⟩

/-- C5 at register meas_status_0 (five fields) and bit 4, its unused_0 filler. -/
theorem masks_partition_the_byte_witness :
    (4 : Nat) < 8 ∧
    (fields Register.meas_status_0).Pairwise (fun f g => f.mask &&& g.mask = 0) ∧
    unionOfMasks (fields Register.meas_status_0) = 0xFF ∧
    (ownersOfBit Register.meas_status_0 4).length = 1 :=
  ⟨by decide, masks_partition_the_byte Register.meas_status_0 4 (by decide)⟩


/-! ## Named constants -/

/-- Every named constant of a register fits the width of its field, and shifted to the position
of the field it is a byte with no bit outside the mask. -/
theorem consts_fit (r : Register) :
    ∀ f ∈ fields r, ∀ c ∈ f.consts,
      c.2 < 2 ^ popcount f.mask ∧
      c.2 <<< trailingZeros f.mask < 256 ∧
      (c.2 <<< trailingZeros f.mask) &&& (0xFF ^^^ f.mask) = 0 := by
  cases r <;> decide

/-- For the fields of the map, a byte is below 2^popcount(mask) exactly when, shifted to the
position of the field, it is a byte with no bit outside the mask. -/
theorem width_iff_shifted (r : Register) :
    ∀ f ∈ fields r, ∀ b < 256,
      (b < 2 ^ popcount f.mask ↔
        (b <<< trailingZeros f.mask < 256 ∧
         (b <<< trailingZeros f.mask) &&& (0xFF ^^^ f.mask) = 0)) := by
  cases r <;> decide!


/-- C6: every named constant c declared in a field with mask m fits the width of the field,
c < 2^popcount(m); shifted left by the trailing zeros of m it is a byte with no bit outside m,
which for the fields of the map is the same condition on any byte; the named constants are the
63 of the oversampling, mode, heat_off, gas_wait_mult and Reset fields; and osrs_t::X16 = 0b101
fits the 3-bit field with mask 0b11100000. -/
theorem named_constant_fits_field (r : Register) (f : Field) (hf : f ∈ fields r)
    (c : String × Nat) (hc : c ∈ f.consts) :
    (c.2 < 2 ^ popcount f.mask ∧
     c.2 <<< trailingZeros f.mask < 256 ∧
     (c.2 <<< trailingZeros f.mask) &&& (0xFF ^^^ f.mask) = 0) ∧
    (∀ b < 256, (b < 2 ^ popcount f.mask ↔
        (b <<< trailingZeros f.mask < 256 ∧
         (b <<< trailingZeros f.mask) &&& (0xFF ^^^ f.mask) = 0))) ∧
    (namedConstants.length = 63 ∧
     fieldsWithConstants =
      [(Register.RESET, "Reset", ["RESET"]),
       (Register.Ctrl_meas, "osrs_t", ["SKIPPED", "X1", "X2", "X4", "X8", "X16"]),
       (Register.Ctrl_meas, "osrs_p", ["SKIPPED", "X1", "X2", "X4", "X8", "X16"]),
       (Register.Ctrl_meas, "mode", ["SLEEP", "FORCED"]),
       (Register.Ctrl_hum, "osrs_h", ["SKIPPED", "X1", "X2", "X4", "X8", "X16"]),
       (Register.Ctrl_gas_0, "heat_off", ["HEAT_OFF", "HEAT_ON"]),
       (Register.Gas_wait_9, "gas_wait_mult", ["X1", "X4", "X16", "X64"]),
       (Register.Gas_wait_8, "gas_wait_mult", ["X1", "X4", "X16", "X64"]),
       (Register.Gas_wait_7, "gas_wait_mult", ["X1", "X4", "X16", "X64"]),
       (Register.Gas_wait_6, "gas_wait_mult", ["X1", "X4", "X16", "X64"]),
       (Register.Gas_wait_5, "gas_wait_mult", ["X1", "X4", "X16", "X64"]),
       (Register.Gas_wait_4, "gas_wait_mult", ["X1", "X4", "X16", "X64"]),
       (Register.Gas_wait_3, "gas_wait_mult", ["X1", "X4", "X16", "X64"]),
       (Register.Gas_wait_2, "gas_wait_mult", ["X1", "X4", "X16", "X64"]),
       (Register.Gas_wait_1, "gas_wait_mult", ["X1", "X4", "X16", "X64"]),
       (Register.Gas_wait_0, "gas_wait_mult", ["X1", "X4", "X16", "X64"])]) ∧
    (Ctrl_meas.osrs_t.X16 = 0b101 ∧ Ctrl_meas.osrs_t.mask = 0b11100000 ∧
     popcount Ctrl_meas.osrs_t.mask = 3 ∧ Ctrl_meas.osrs_t.X16 < 2 ^ 3) :=
  ⟨consts_fit r f hf c hc, width_iff_shifted r f hf, ⟨by decide, by decide⟩, by decide⟩

/-- C6 at the constant X16 of the field osrs_t of register Ctrl_meas. -/
theorem named_constant_fits_field_witness :
    (⟨"osrs_t", 0b000, 0b11100000,
        [("SKIPPED", 0b00), ("X1", 0b01), ("X2", 0b10), ("X4", 0b11), ("X8", 0b100),
         ("X16", 0b101)]⟩ : Field) ∈ fields Register.Ctrl_meas ∧
    (5 : Nat) < 2 ^ popcount 0b11100000 ∧
    (5 : Nat) <<< trailingZeros 0b11100000 < 256 ∧
    ((5 : Nat) <<< trailingZeros 0b11100000) &&& (0xFF ^^^ 0b11100000) = 0 :=
  have hf : (⟨"osrs_t", 0b000, 0b11100000,
        [("SKIPPED", 0b00), ("X1", 0b01), ("X2", 0b10), ("X4", 0b11), ("X8", 0b100),
         ("X16", 0b101)]⟩ : Field) ∈ fields Register.Ctrl_meas := List.Mem.head _
  ⟨hf, (named_constant_fits_field Register.Ctrl_meas _ hf ("X16", 0b101) (by simp)).1⟩


/-! ## The constants of the control registers -/

/-- C7: the soft-reset constant is 0xB6, and for every byte v, 0xB6 or not, setRESET(v) is the
call write(224, v, 8) on any transport and the only call the recording transport receives:
v is neither rejected, altered nor checked. -/
theorem setRESET_passes_any_byte (v : Nat) (hv : v < 256) :
    RESET.Reset.RESET = 0xB6 ∧ RESET.Reset.RESET = 182 ∧ RESET.__address = 224 ∧
    (∀ (μ : Type → Type) (T : Transport μ), setRESET T v = T.write 224 v 8) ∧
    ∀ (answer : List Call → Nat) (log : List Call),
      (setRESET (recorder answer) v).run log = ((), log ++ [Call.write 224 v 8]) := by
  have hmod : v % 256 = v := Nat.mod_eq_of_lt hv
  refine ⟨rfl, rfl, rfl, fun μ T => ?_, fun answer log => ?_⟩
  · show T.write 224 (v % 256) 8 = T.write 224 v 8
    rw [hmod]
  · show ((), log ++ [Call.write 224 (v % 256) 8]) = ((), log ++ [Call.write 224 v 8])
    rw [hmod]

/-- C7 at the byte 0x00, which is not the reset command, on a fresh recording transport. -/
theorem setRESET_passes_any_byte_witness :
    (0 : Nat) < 256 ∧ (0 : Nat) ≠ RESET.Reset.RESET ∧
    (setRESET (recorder (fun _ => 0)) 0).run [] = ((), [Call.write 224 0 8]) :=
  ⟨by decide, by decide, (setRESET_passes_any_byte 0 (by decide)).2.2.2.2 (fun _ => 0) []⟩

/-- C8: the oversampling selectors are SKIPPED=0, X1=1, X2=2, X4=3, X8=4, X16=5 in each of
Ctrl_meas::osrs_t, Ctrl_meas::osrs_p and Ctrl_hum::osrs_h. -/
theorem oversampling_selector_values :
    (Ctrl_meas.osrs_t.SKIPPED = 0 ∧ Ctrl_meas.osrs_t.X1 = 1 ∧ Ctrl_meas.osrs_t.X2 = 2 ∧
     Ctrl_meas.osrs_t.X4 = 3 ∧ Ctrl_meas.osrs_t.X8 = 4 ∧ Ctrl_meas.osrs_t.X16 = 5) ∧
    (Ctrl_meas.osrs_p.SKIPPED = 0 ∧ Ctrl_meas.osrs_p.X1 = 1 ∧ Ctrl_meas.osrs_p.X2 = 2 ∧
     Ctrl_meas.osrs_p.X4 = 3 ∧ Ctrl_meas.osrs_p.X8 = 4 ∧ Ctrl_meas.osrs_p.X16 = 5) ∧
    (Ctrl_hum.osrs_h.SKIPPED = 0 ∧ Ctrl_hum.osrs_h.X1 = 1 ∧ Ctrl_hum.osrs_h.X2 = 2 ∧
     Ctrl_hum.osrs_h.X4 = 3 ∧ Ctrl_hum.osrs_h.X8 = 4 ∧ Ctrl_hum.osrs_h.X16 = 5) ∧
    (fields Register.Ctrl_meas).map (fun f => (f.name, f.consts)) =
      [("osrs_t", [("SKIPPED", 0), ("X1", 1), ("X2", 2), ("X4", 3), ("X8", 4), ("X16", 5)]),
       ("osrs_p", [("SKIPPED", 0), ("X1", 1), ("X2", 2), ("X4", 3), ("X8", 4), ("X16", 5)]),
       ("mode", [("SLEEP", 0), ("FORCED", 1)])] ∧
    ((fields Register.Ctrl_hum).filter (fun f => f.name = "osrs_h")).map (fun f => f.consts) =
      [[("SKIPPED", 0), ("X1", 1), ("X2", 2), ("X4", 3), ("X8", 4), ("X16", 5)]] := by
  decide

/-- C9: the power-mode constants are SLEEP=0 and FORCED=1, and mode is the 2-bit field with
mask 0b00000011 of Ctrl_meas, the register at address 116. -/
theorem power_mode_constants :
    Ctrl_meas.mode.SLEEP = 0 ∧ Ctrl_meas.mode.FORCED = 1 ∧
    Ctrl_meas.mode.mask = 0b00000011 ∧ popcount Ctrl_meas.mode.mask = 2 ∧
    Ctrl_meas.__address = 116 ∧ address Register.Ctrl_meas = 116 ∧
    (⟨"mode", Ctrl_meas.mode.dflt, 0b00000011, [("SLEEP", 0), ("FORCED", 1)]⟩ : Field)
      ∈ fields Register.Ctrl_meas := by
  decide

/-- C10: the heater constants are HEAT_ON=0 and HEAT_OFF=1, and heat_off is the 1-bit field
with mask 0b00001000 of Ctrl_gas_0, the register at address 112. -/
theorem heater_constants :
    Ctrl_gas_0.heat_off.HEAT_ON = 0 ∧ Ctrl_gas_0.heat_off.HEAT_OFF = 1 ∧
    Ctrl_gas_0.heat_off.mask = 0b00001000 ∧ popcount Ctrl_gas_0.heat_off.mask = 1 ∧
    Ctrl_gas_0.__address = 112 ∧ address Register.Ctrl_gas_0 = 112 ∧
    (⟨"heat_off", Ctrl_gas_0.heat_off.dflt, 0b00001000, [("HEAT_OFF", 1), ("HEAT_ON", 0)]⟩ : Field)
      ∈ fields Register.Ctrl_gas_0 := by
  decide

/-! ## Gas wait registers and the humidity scenario -/

/-- The field layout of every Gas_wait register. -/
theorem fields_Gas_wait (i : Fin 10) :
    fields (Gas_wait i) =
      [⟨"gas_wait_mult", 0, 0b11000000, [("X1", 0), ("X4", 1), ("X16", 2), ("X64", 3)]⟩,
       ⟨"gas_wait_val", 0, 0b00111111, []⟩] := by
  revert i
  decide

/-- The part of a byte under the mask 0b00111111 is below 64. -/
theorem and_63_lt (b : Nat) : b &&& 0b00111111 < 64 :=
  Nat.lt_succ_of_le Nat.and_le_right

/-- A value below 64 is kept whole by the mask 0b00111111. -/
theorem and_63_of_lt (val : Nat) (h : val < 64) : val &&& 0b00111111 = val := by
  revert val
  decide!

/-- C11: for every i in 0..9, Gas_wait_i has exactly the fields gas_wait_mult (mask 0b11000000,
2 bits, constants X1=0, X4=1, X16=2, X64=3) and gas_wait_val (mask 0b00111111, 6 bits, at
bit 0), and gas_wait_val holds exactly the values 0..63: the part of any byte under its mask
is below 64, and every value below 64 is kept whole by the mask. -/
theorem gas_wait_fields (i : Fin 10) (b : Nat) (val : Nat) (hval : val < 64) :
    ∃ mult wait : Field,
      fields (Gas_wait i) = [mult, wait] ∧
      mult.name = "gas_wait_mult" ∧ mult.mask = 0b11000000 ∧ popcount mult.mask = 2 ∧
      mult.consts = [("X1", 0), ("X4", 1), ("X16", 2), ("X64", 3)] ∧
      wait.name = "gas_wait_val" ∧ wait.mask = 0b00111111 ∧ popcount wait.mask = 6 ∧
      trailingZeros wait.mask = 0 ∧
      b &&& wait.mask < 64 ∧ val &&& wait.mask = val :=
  ⟨_, _, fields_Gas_wait i, rfl, rfl, by decide, rfl, rfl, rfl, by decide, by decide,
    and_63_lt b, and_63_of_lt val hval⟩

/-- C11 at Gas_wait_9, the byte 0xFF and the largest wait value 63. -/
theorem gas_wait_fields_witness :
    (63 : Nat) < 64 ∧
    ∃ mult wait : Field,
      fields Register.Gas_wait_9 = [mult, wait] ∧
      mult.name = "gas_wait_mult" ∧ mult.mask = 0b11000000 ∧ popcount mult.mask = 2 ∧
      mult.consts = [("X1", 0), ("X4", 1), ("X16", 2), ("X64", 3)] ∧
      wait.name = "gas_wait_val" ∧ wait.mask = 0b00111111 ∧ popcount wait.mask = 6 ∧
      trailingZeros wait.mask = 0 ∧
      255 &&& wait.mask < 64 ∧ 63 &&& wait.mask = 63 :=
  ⟨by decide, gas_wait_fields 9 255 63 (by decide)⟩

/-- C12: Ctrl_hum is at address 114 and osrs_h occupies bits 0, 1 and 2; the byte assembled from
the field defaults with osrs_h holding 0b010 (X2) is 0x02; and on the store-last-byte
transport, from any store, setCtrl_hum of that byte followed by getCtrl_hum returns a byte
whose bits 0..2 are 0b010 and whose other bits are those that were written. -/
theorem humidity_oversampling_scenario (store : Nat → Nat) :
    Ctrl_hum.__address = 114 ∧
    Ctrl_hum.osrs_h.mask = 0b00000111 ∧
    (List.range 8).filter (fun i => Ctrl_hum.osrs_h.mask.testBit i) = [0, 1, 2] ∧
    Ctrl_hum.osrs_h.X2 = 0b010 ∧
    defaultByteWith Register.Ctrl_hum "osrs_h" Ctrl_hum.osrs_h.X2 = 0x02 ∧
    ((setCtrl_hum fakeTransport 0x02).run store).2 114 = 0x02 ∧
    ((getCtrl_hum fakeTransport).run ((setCtrl_hum fakeTransport 0x02).run store).2).1
        &&& 0b00000111 = 0b010 ∧
    ((getCtrl_hum fakeTransport).run ((setCtrl_hum fakeTransport 0x02).run store).2).1
        &&& 0b11111000 = 0x02 &&& 0b11111000 := by
  have hget : ((getCtrl_hum fakeTransport).run
      ((setCtrl_hum fakeTransport 0x02).run store).2).1 = 0x02 := by
    simp [getCtrl_hum, setCtrl_hum, fakeTransport, StateT.run, Ctrl_hum.__address]
  have hstore : ((setCtrl_hum fakeTransport 0x02).run store).2 114 = 0x02 := by
    simp [setCtrl_hum, fakeTransport, StateT.run, Ctrl_hum.__address]
  refine ⟨rfl, rfl, by decide, rfl, by decide, hstore, ?_, ?_⟩
  · rw [hget]
    decide
  · rw [hget]

/-! ## Transport failures -/

/-- C13: with primitives that may fail, for every register R and byte v, get<R>() and set<R>(v)
have on every transport and from every state exactly the outcome (failure with its error, or
success with its result) and final state of read8(R::__address, 8) and
write(R::__address, v, 8), so an accessor fails iff its primitive fails, with the same error;
and the failing recorder receives exactly that one call, so a failure is neither retried nor
replaced and no error is added. -/
theorem transport_failure_passes_through (r : Register) (v : Nat) (hv : v < 256)
    (ε σ : Type) (T : Transport (ExceptT ε (StateM σ))) (s : σ)
    (outcome : List Call → Except ε Nat) (log : List Call) :
    ((getRegister r T).run.run s = (T.read8 (address r) 8).run.run s ∧
     (setRegister r T v).run.run s = (T.write (address r) v 8).run.run s) ∧
    (∀ e : ε, (((getRegister r T).run.run s).1 = Except.error e ↔
                ((T.read8 (address r) 8).run.run s).1 = Except.error e) ∧
              (((setRegister r T v).run.run s).1 = Except.error e ↔
                ((T.write (address r) v 8).run.run s).1 = Except.error e)) ∧
    ((∀ b : Nat, ((T.read8 (address r) 8).run.run s).1 = Except.ok b →
        ((getRegister r T).run.run s).1 = Except.ok b) ∧
     (((T.write (address r) v 8).run.run s).1 = Except.ok () →
        ((setRegister r T v).run.run s).1 = Except.ok ())) ∧
    ((getRegister r (faultyRecorder outcome)).run.run log
        = (outcome (log ++ [Call.read8 (address r) 8]), log ++ [Call.read8 (address r) 8]) ∧
     (setRegister r (faultyRecorder outcome) v).run.run log
        = ((outcome (log ++ [Call.write (address r) v 8])).map (fun _ => ()),
            log ++ [Call.write (address r) v 8])) := by
  have hmod : v % 256 = v := Nat.mod_eq_of_lt hv
  have hget : getRegister r T = T.read8 (address r) 8 := getRegister_eq_read8 r T
  have hset : setRegister r T v = T.write (address r) v 8 := by
    rw [setRegister_eq_write, hmod]
  refine ⟨⟨by rw [hget], by rw [hset]⟩, fun e => ⟨by rw [hget], by rw [hset]⟩,
    ⟨fun b h => by rw [hget]; exact h, fun h => by rw [hset]; exact h⟩, ?_, ?_⟩
  · rw [getRegister_eq_read8]
    rfl
  · rw [setRegister_eq_write, hmod]
    rfl

/-- C13 at register Ctrl_meas and the byte 0x01, on a recorder whose every call fails with the
error "NACK": both accessors fail with "NACK" after one recorded call. -/
theorem transport_failure_passes_through_witness :
    (1 : Nat) < 256 ∧
    (getRegister Register.Ctrl_meas
        (faultyRecorder (fun _ => (Except.error "NACK" : Except String Nat)))).run.run []
      = (Except.error "NACK", [Call.read8 116 8]) ∧
    (setRegister Register.Ctrl_meas
        (faultyRecorder (fun _ => (Except.error "NACK" : Except String Nat))) 1).run.run []
      = (Except.error "NACK", [Call.write 116 1 8]) :=
  ⟨by decide,
   (transport_failure_passes_through Register.Ctrl_meas 1 (by decide) String (List Call)
      (faultyRecorder (fun _ => Except.error "NACK")) []
      (fun _ => Except.error "NACK") []).2.2.2⟩

/-! ## Independence of registers and repeated reads -/

/-- On the store-last-byte transport, set<R>(value) stores the byte at R::__address and leaves
every other address as it was. -/
theorem store_after_set (r : Register) (store : Nat → Nat) (value : Nat) :
    ((setRegister r fakeTransport value).run store).2
      = fun a => if a = address r then value % 256 else store a := by
  rw [setRegister_eq_write]
  rfl

/-- On the store-last-byte transport, get<R>() returns the byte stored at R::__address and
leaves the store as it was. -/
theorem get_on_store (r : Register) (store : Nat → Nat) :
    (getRegister r fakeTransport).run store = (store (address r), store) := by
  rw [getRegister_eq_read8]
  rfl

/-- C14: on the store-last-byte transport, for two different registers R and Q, every store and
every byte v, get<Q>() returns after set<R>(v) the byte it returned before; set<R>(v) changes
the stored byte at R::__address only (to v) and leaves every other address unchanged. -/
theorem set_leaves_other_registers (r q : Register) (hrq : r ≠ q) (store : Nat → Nat)
    (v : Nat) (hv : v < 256) :
    ((getRegister q fakeTransport).run ((setRegister r fakeTransport v).run store).2).1
      = ((getRegister q fakeTransport).run store).1 ∧
    ((setRegister r fakeTransport v).run store).2 (address r) = v ∧
    ∀ a, a ≠ address r → ((setRegister r fakeTransport v).run store).2 a = store a := by
  have hmod : v % 256 = v := Nat.mod_eq_of_lt hv
  have hne : address q ≠ address r := fun h => hrq (address_injective q r h).symm
  rw [store_after_set, get_on_store, get_on_store]
  refine ⟨?_, ?_, fun a ha => ?_⟩
  · simp [hne]
  · simp [hmod]
  · simp [ha]

/-- C14 at R = Ctrl_meas, Q = Ctrl_hum, the byte 0x25 and a store holding 7 everywhere. -/
theorem set_leaves_other_registers_witness :
    Register.Ctrl_meas ≠ Register.Ctrl_hum ∧ (0x25 : Nat) < 256 ∧
    ((getRegister Register.Ctrl_hum fakeTransport).run
        ((setRegister Register.Ctrl_meas fakeTransport 0x25).run (fun _ => 7)).2).1
      = ((getRegister Register.Ctrl_hum fakeTransport).run (fun _ => 7)).1 ∧
    ((setRegister Register.Ctrl_meas fakeTransport 0x25).run (fun _ => 7)).2 116 = 0x25 :=
  have h := set_leaves_other_registers Register.Ctrl_meas Register.Ctrl_hum (by decide)
    (fun _ => 7) 0x25 (by decide)
  ⟨by decide, by decide, h.1, h.2.1⟩

/-- The recorder after n calls of get<R>(): the n results and the log. -/
theorem getRepeatedly_recorder (r : Register) (answer : List Call → Nat) (n : Nat) :
    ∀ log : List Call,
      (getRepeatedly r (recorder answer) n).run log
        = ((List.range n).map
              (fun k => answer (log ++ List.replicate (k + 1) (Call.read8 (address r) 8))),
            log ++ List.replicate n (Call.read8 (address r) 8)) := by
  induction n with
  | zero => intro log; simp [getRepeatedly, StateT.run, pure, StateT.pure]
  | succ n ih =>
    intro log
    have hstep : (getRepeatedly r (recorder answer) (n + 1)).run log
        = (answer (log ++ [Call.read8 (address r) 8]) ::
            ((getRepeatedly r (recorder answer) n).run
              (log ++ [Call.read8 (address r) 8])).1,
           ((getRepeatedly r (recorder answer) n).run
              (log ++ [Call.read8 (address r) 8])).2) := by
      rw [getRepeatedly, getRegister_eq_read8]
      rfl
    rw [hstep, ih]
    simp [List.range_succ_eq_map, List.replicate_succ, Function.comp_def]

/-- C15: for every register R, n calls of get<R>() add exactly n calls read8(R::__address, 8) to
the calls the recording transport has received, and the call number k (counted from 0)
returns the byte the transport answered to that very read8, whatever it answered before:
nothing is cached and nothing is retried. -/
theorem repeated_get_reads_every_time (r : Register) (answer : List Call → Nat)
    (log : List Call) (n k : Nat) (hk : k < n) :
    ((getRepeatedly r (recorder answer) n).run log).2
      = log ++ List.replicate n (Call.read8 (address r) 8) ∧
    ((getRepeatedly r (recorder answer) n).run log).1.length = n ∧
    ((getRepeatedly r (recorder answer) n).run log).1[k]?
      = some (answer (log ++ List.replicate (k + 1) (Call.read8 (address r) 8))) := by
  rw [getRepeatedly_recorder]
  refine ⟨rfl, by simp, ?_⟩
  simp [List.getElem?_map, List.getElem?_range hk]

/-- C15 at register meas_status_0 read twice, on a transport that answers 0x80 to its first call
and 0x00 from then on: the second get returns the new byte 0x00, not the first 0x80. -/
theorem repeated_get_reads_every_time_witness :
    (1 : Nat) < 2 ∧
    (getRepeatedly Register.meas_status_0
        (recorder (fun calls => if calls.length = 1 then 0x80 else 0x00)) 2).run []
      = ([0x80, 0x00], [Call.read8 29 8, Call.read8 29 8]) ∧
    ((getRepeatedly Register.meas_status_0
        (recorder (fun calls => if calls.length = 1 then 0x80 else 0x00)) 2).run []).1[1]?
      = some 0x00 :=
  ⟨by decide, rfl,
   (repeated_get_reads_every_time Register.meas_status_0
      (fun calls => if calls.length = 1 then 0x80 else 0x00) [] 2 1 (by decide)).2.2⟩

/-! ## Shape of the masks and reset values -/

/-- Every mask of a register is the run of popcount(mask) set bits that starts at bit
trailingZeros(mask), and the run is not empty and ends within the byte. -/
theorem mask_is_run (r : Register) :
    ∀ f ∈ fields r,
      1 ≤ popcount f.mask ∧ trailingZeros f.mask + popcount f.mask ≤ 8 ∧
      f.mask = ((1 <<< popcount f.mask) - 1) <<< trailingZeros f.mask := by
  cases r <;> decide

/-- C16: every field mask of every register is a contiguous bit-span: it equals
((1 << w) - 1) << s for a shift s and a width w >= 1 with s + w <= 8. -/
theorem masks_are_contiguous (r : Register) (f : Field) (hf : f ∈ fields r) :
    ∃ s w : Nat, 1 ≤ w ∧ s + w ≤ 8 ∧ f.mask = ((1 <<< w) - 1) <<< s :=
  ⟨trailingZeros f.mask, popcount f.mask, mask_is_run r f hf⟩

/-- C16 at the field unused_1 of Ctrl_hum, whose mask 0b00111000 is 3 bits from bit 3. -/
theorem masks_are_contiguous_witness :
    (⟨"unused_1", 0b000, 0b00111000, []⟩ : Field) ∈ fields Register.Ctrl_hum ∧
    ∃ s w : Nat, 1 ≤ w ∧ s + w ≤ 8 ∧ (0b00111000 : Nat) = ((1 <<< w) - 1) <<< s :=
  have hf : (⟨"unused_1", 0b000, 0b00111000, []⟩ : Field) ∈ fields Register.Ctrl_hum := by
    decide
  ⟨hf, masks_are_contiguous Register.Ctrl_hum _ hf⟩

/-- C17: the field defaults of the 20-bit temperature and pressure results combine, as
msb * 2^12 + lsb * 2^4 + xlsb, to the reset value 0x80000. -/
theorem temperature_pressure_reset_value :
    temp_msb.temp_msb_.dflt * 2 ^ 12 + temp_lsb.temp_lsb_.dflt * 2 ^ 4
      + temp_xlsb.temp_xlsb_.dflt = 0x80000 ∧
    press_msb.press_msb_.dflt * 2 ^ 12 + press_lsb.press_lsb_.dflt * 2 ^ 4
      + press_xlsb.press_xlsb_.dflt = 0x80000 ∧
    (fields Register.temp_msb).map (fun f => (f.dflt, f.mask)) = [(0b10000000, 0xFF)] ∧
    (fields Register.temp_lsb).map (fun f => (f.dflt, f.mask)) = [(0, 0xFF)] ∧
    (fields Register.temp_xlsb).map (fun f => (f.name, f.dflt, f.mask))
      = [("temp_xlsb_", 0, 0b11110000), ("unused_0", 0, 0b00001111)] ∧
    (fields Register.press_msb).map (fun f => (f.dflt, f.mask)) = [(0b10000000, 0xFF)] ∧
    (fields Register.press_lsb).map (fun f => (f.dflt, f.mask)) = [(0, 0xFF)] ∧
    (fields Register.press_xlsb).map (fun f => (f.name, f.dflt, f.mask))
      = [("press_xlsb_", 0, 0b11110000), ("unused_0", 0, 0b00001111)] := by
  decide

/-- C18: the field defaults of the 16-bit humidity result combine, as msb * 2^8 + lsb, to
0x8000, the output of a skipped measurement. -/
theorem humidity_reset_value :
    hum_msb.hum_msb_.dflt * 2 ^ 8 + hum_lsb.hum_lsb_.dflt = 0x8000 ∧
    (fields Register.hum_msb).map (fun f => (f.dflt, f.mask)) = [(0b10000000, 0xFF)] ∧
    (fields Register.hum_lsb).map (fun f => (f.dflt, f.mask)) = [(0, 0xFF)] ∧
    Ctrl_hum.osrs_h.SKIPPED = 0 := by
  decide

/-- C19: for every i in 0..9 the addresses are Idac_heat_i = 80 + i, Res_heat_i = 90 + i and
Gas_wait_i = 100 + i, and any two registers of one family have the same fields: the same
names, masks, defaults and named constants. -/
theorem heater_set_point_blocks (i j : Fin 10) :
    (address (Idac_heat i) = 80 + i.val ∧ address (Res_heat i) = 90 + i.val ∧
     address (Gas_wait i) = 100 + i.val) ∧
    (fields (Idac_heat i) = fields (Idac_heat j) ∧
     fields (Res_heat i) = fields (Res_heat j) ∧
     fields (Gas_wait i) = fields (Gas_wait j)) ∧
    ([Idac_heat 0, Idac_heat 9, Res_heat 0, Res_heat 9, Gas_wait 0, Gas_wait 9]
      = [Register.Idac_heat_0, Register.Idac_heat_9, Register.Res_heat_0, Register.Res_heat_9,
         Register.Gas_wait_0, Register.Gas_wait_9]) := by
  revert i j
  decide

/-! ## Splitting a byte into fields -/

/-- The parts of any byte under the masks of a register OR together, and add up, to the byte. -/
theorem splitByte_restores (r : Register) :
    ∀ b < 256, (splitByte r b).foldl (fun acc p => acc ||| p) 0 = b ∧ (splitByte r b).sum = b := by
  cases r <;> decide!

/-- A multiplier and a wait value packed as (mult << 6) | val come apart again under the masks
0b11000000 and 0b00111111. -/
theorem gas_wait_byte_unpacks :
    ∀ mult < 4, ∀ val < 64,
      (((mult <<< 6) ||| val) &&& 0b11000000) >>> 6 = mult ∧
      ((mult <<< 6) ||| val) &&& 0b00111111 = val := by
  decide!

/-- C20: for every register and every byte b, the bitwise OR, and equally the sum, of b & mask
over the fields of the register is b; and for every Gas_wait_i, every mult in 0..3 and every
val in 0..63, the byte B = (mult << 6) | val gives back mult as (B & gas_wait_mult::mask) >> 6
and val as B & gas_wait_val::mask. -/
theorem byte_splits_into_fields (r : Register) (b : Nat) (hb : b < 256) (i : Fin 10)
    (mult : Nat) (hmult : mult < 4) (val : Nat) (hval : val < 64) :
    ((splitByte r b).foldl (fun acc p => acc ||| p) 0 = b ∧ (splitByte r b).sum = b) ∧
    (fieldNamed (Gas_wait i) "gas_wait_mult").map
        (fun f => (((mult <<< 6) ||| val) &&& f.mask) >>> 6) = some mult ∧
    (fieldNamed (Gas_wait i) "gas_wait_val").map
        (fun f => ((mult <<< 6) ||| val) &&& f.mask) = some val := by
  have hunpack := gas_wait_byte_unpacks mult hmult val hval
  refine ⟨splitByte_restores r b hb, ?_, ?_⟩
  · rw [fieldNamed, fields_Gas_wait]
    exact congrArg some hunpack.1
  · rw [fieldNamed, fields_Gas_wait]
    exact congrArg some hunpack.2

/-- C20 at register Ctrl_meas and the byte 0xB5, and at Gas_wait_0 with multiplier 3 (X64) and
wait value 42. -/
theorem byte_splits_into_fields_witness :
    (0xB5 : Nat) < 256 ∧ (3 : Nat) < 4 ∧ (42 : Nat) < 64 ∧
    splitByte Register.Ctrl_meas 0xB5 = [0xA0, 0x14, 0x01] ∧
    ((splitByte Register.Ctrl_meas 0xB5).foldl (fun acc p => acc ||| p) 0 = 0xB5 ∧
     (splitByte Register.Ctrl_meas 0xB5).sum = 0xB5) ∧
    (fieldNamed Register.Gas_wait_0 "gas_wait_mult").map
        (fun f => (((3 <<< 6) ||| 42) &&& f.mask) >>> 6) = some 3 ∧
    (fieldNamed Register.Gas_wait_0 "gas_wait_val").map
        (fun f => ((3 <<< 6) ||| 42) &&& f.mask) = some 42 :=
  ⟨by decide, by decide, by decide, by decide,
   byte_splits_into_fields Register.Ctrl_meas 0xB5 (by decide) 0 3 (by decide) 42 (by decide)⟩

/-! ## Field defaults and distinct constants -/

/-- Every field default of a register fits the width of its field, and shifted to the position
of the field it is a byte with no bit outside the mask. -/
theorem dflts_fit (r : Register) :
    ∀ f ∈ fields r,
      f.dflt < 2 ^ popcount f.mask ∧
      f.dflt <<< trailingZeros f.mask < 256 ∧
      (f.dflt <<< trailingZeros f.mask) &&& (0xFF ^^^ f.mask) = 0 := by
  cases r <;> decide

/-- C21: for every field of every register, with mask m and default dflt, dflt < 2^popcount(m),
and dflt placed at the position of the field is a byte with no bit outside m; STATUS::unused_1
has dflt 0b0001 in a 4-bit field and hum_msb has dflt 0b10000000 in an 8-bit field. -/
theorem default_fits_field (r : Register) (f : Field) (hf : f ∈ fields r) :
    (f.dflt < 2 ^ popcount f.mask ∧
     f.dflt <<< trailingZeros f.mask < 256 ∧
     (f.dflt <<< trailingZeros f.mask) &&& (0xFF ^^^ f.mask) = 0) ∧
    (STATUS.unused_1.dflt = 0b0001 ∧ popcount STATUS.unused_1.mask = 4 ∧
     hum_msb.hum_msb_.dflt = 0b10000000 ∧ popcount hum_msb.hum_msb_.mask = 8) ∧
    (allRegisters.flatMap fields).length = 82 :=
  ⟨dflts_fit r f hf, by decide, by decide⟩

/-- C21 at the field unused_1 of STATUS, the only filler with a default that is not zero. -/
theorem default_fits_field_witness :
    (⟨"unused_1", 0b0001, 0b00001111, []⟩ : Field) ∈ fields Register.STATUS ∧
    (0b0001 : Nat) < 2 ^ popcount 0b00001111 ∧
    (0b0001 : Nat) <<< trailingZeros 0b00001111 < 256 ∧
    ((0b0001 : Nat) <<< trailingZeros 0b00001111) &&& (0xFF ^^^ 0b00001111) = 0 :=
  have hf : (⟨"unused_1", 0b0001, 0b00001111, []⟩ : Field) ∈ fields Register.STATUS := by
    decide
  ⟨hf, (default_fits_field Register.STATUS _ hf).1⟩

/-- The named constants of a field of a register have pairwise different values and pairwise
different names. -/
theorem consts_distinct (r : Register) :
    ∀ f ∈ fields r,
      f.consts.Pairwise (fun c d => c.2 ≠ d.2) ∧ f.consts.Pairwise (fun c d => c.1 ≠ d.1) := by
  cases r <;> decide

/-- C22: within each field that declares named constants, different names denote different
values: the six selectors of osrs_t, of osrs_p and of osrs_h are pairwise distinct,
SLEEP != FORCED, HEAT_ON != HEAT_OFF, and the four multipliers of every Gas_wait_i are
pairwise distinct. -/
theorem named_constants_distinct (r : Register) (f : Field) (hf : f ∈ fields r) (i : Fin 10) :
    (f.consts.Pairwise (fun c d => c.2 ≠ d.2) ∧ f.consts.Pairwise (fun c d => c.1 ≠ d.1)) ∧
    ([Ctrl_meas.osrs_t.SKIPPED, Ctrl_meas.osrs_t.X1, Ctrl_meas.osrs_t.X2, Ctrl_meas.osrs_t.X4,
      Ctrl_meas.osrs_t.X8, Ctrl_meas.osrs_t.X16].Nodup ∧
     [Ctrl_meas.osrs_p.SKIPPED, Ctrl_meas.osrs_p.X1, Ctrl_meas.osrs_p.X2, Ctrl_meas.osrs_p.X4,
      Ctrl_meas.osrs_p.X8, Ctrl_meas.osrs_p.X16].Nodup ∧
     [Ctrl_hum.osrs_h.SKIPPED, Ctrl_hum.osrs_h.X1, Ctrl_hum.osrs_h.X2, Ctrl_hum.osrs_h.X4,
      Ctrl_hum.osrs_h.X8, Ctrl_hum.osrs_h.X16].Nodup) ∧
    (Ctrl_meas.mode.SLEEP ≠ Ctrl_meas.mode.FORCED ∧
     Ctrl_gas_0.heat_off.HEAT_ON ≠ Ctrl_gas_0.heat_off.HEAT_OFF) ∧
    ((fieldNamed (Gas_wait i) "gas_wait_mult").map (fun g => g.consts)
        = some [("X1", 0), ("X4", 1), ("X16", 2), ("X64", 3)] ∧
     [Gas_wait_9.gas_wait_mult.X1, Gas_wait_9.gas_wait_mult.X4, Gas_wait_9.gas_wait_mult.X16,
      Gas_wait_9.gas_wait_mult.X64].Nodup) := by
  refine ⟨consts_distinct r f hf, by decide, by decide, ?_, by decide⟩
  rw [fieldNamed, fields_Gas_wait]
  rfl

/-- C22 at the field osrs_t of Ctrl_meas and at Gas_wait_0. -/
theorem named_constants_distinct_witness :
    (⟨"osrs_t", 0b000, 0b11100000,
        [("SKIPPED", 0b00), ("X1", 0b01), ("X2", 0b10), ("X4", 0b11), ("X8", 0b100),
         ("X16", 0b101)]⟩ : Field) ∈ fields Register.Ctrl_meas ∧
    [("SKIPPED", 0b00), ("X1", 0b01), ("X2", 0b10), ("X4", 0b11), ("X8", 0b100),
      ("X16", 0b101)].Pairwise (fun (c d : String × Nat) => c.2 ≠ d.2) :=
  have hf : (⟨"osrs_t", 0b000, 0b11100000,
        [("SKIPPED", 0b00), ("X1", 0b01), ("X2", 0b10), ("X4", 0b11), ("X8", 0b100),
         ("X16", 0b101)]⟩ : Field) ∈ fields Register.Ctrl_meas := List.Mem.head _
  ⟨hf, (named_constants_distinct Register.Ctrl_meas _ hf 0).1.1⟩

/-! ## Reads and writes on the store -/

/-- On the store-last-byte transport, set<R>(x) followed by set<Q>(y) leaves y at Q::__address,
x at R::__address when that is another address, and every other address as it was. -/
theorem store_after_setThenSet (r q : Register) (store : Nat → Nat) (x y : Nat) :
    ((setThenSet r q fakeTransport x y).run store).2
      = fun a => if a = address q then y % 256
                 else if a = address r then x % 256 else store a := by
  have hstep : ((setThenSet r q fakeTransport x y).run store).2
      = ((setRegister q fakeTransport y).run ((setRegister r fakeTransport x).run store).2).2 :=
    rfl
  rw [hstep, store_after_set, store_after_set]

/-- C23: on the store-last-byte transport, for every register R and every store, get<R>()
leaves the whole store unchanged: the byte at every address, R::__address included, is the
same after the call as before it. -/
theorem get_leaves_store (r : Register) (store : Nat → Nat) (a : Nat) :
    ((getRegister r fakeTransport).run store).2 = store ∧
    ((getRegister r fakeTransport).run store).2 a = store a ∧
    ((getRegister r fakeTransport).run store).2 (address r) = store (address r) := by
  rw [get_on_store]
  exact ⟨rfl, rfl, rfl⟩

/-- C24: on the store-last-byte transport, for every register R and all bytes v1 and v2, the
store after set<R>(v1); set<R>(v2) is the store after set<R>(v2) alone, a following get<R>()
returns v2, and set<R>(v2); set<R>(v2) leaves the same store as one set<R>(v2). -/
theorem last_write_wins (r : Register) (store : Nat → Nat) (v1 v2 : Nat)
    (hv1 : v1 < 256) (hv2 : v2 < 256) :
    ((setThenSet r r fakeTransport v1 v2).run store).2
      = ((setRegister r fakeTransport v2).run store).2 ∧
    ((getRegister r fakeTransport).run ((setThenSet r r fakeTransport v1 v2).run store).2).1
      = v2 ∧
    ((setThenSet r r fakeTransport v2 v2).run store).2
      = ((setRegister r fakeTransport v2).run store).2 := by
  have hmod1 : v1 % 256 = v1 := Nat.mod_eq_of_lt hv1
  have hmod2 : v2 % 256 = v2 := Nat.mod_eq_of_lt hv2
  rw [store_after_setThenSet, store_after_setThenSet, store_after_set, get_on_store,
    hmod1, hmod2]
  refine ⟨?_, ?_, ?_⟩
  · funext a
    by_cases ha : a = address r <;> simp [ha]
  · simp
  · funext a
    by_cases ha : a = address r <;> simp [ha]

/-- C24 at register Ctrl_meas, writing 0x24 and then 0x25 over a store holding 7 everywhere. -/
theorem last_write_wins_witness :
    (0x24 : Nat) < 256 ∧ (0x25 : Nat) < 256 ∧
    ((setThenSet Register.Ctrl_meas Register.Ctrl_meas fakeTransport 0x24 0x25).run
        (fun _ => 7)).2
      = ((setRegister Register.Ctrl_meas fakeTransport 0x25).run (fun _ => 7)).2 ∧
    ((getRegister Register.Ctrl_meas fakeTransport).run
        ((setThenSet Register.Ctrl_meas Register.Ctrl_meas fakeTransport 0x24 0x25).run
          (fun _ => 7)).2).1 = 0x25 :=
  have h := last_write_wins Register.Ctrl_meas (fun _ => 7) 0x24 0x25 (by decide) (by decide)
  ⟨by decide, by decide, h.1, h.2.1⟩

/-- C25: on the store-last-byte transport, for two different registers R and Q and all bytes x
and y, the store after set<R>(x); set<Q>(y) is the store after set<Q>(y); set<R>(x). -/
theorem writes_to_different_registers_commute (r q : Register) (hrq : r ≠ q)
    (store : Nat → Nat) (x y : Nat) (hx : x < 256) (hy : y < 256) :
    ((setThenSet r q fakeTransport x y).run store).2
      = ((setThenSet q r fakeTransport y x).run store).2 ∧
    ((setThenSet r q fakeTransport x y).run store).2 (address r) = x ∧
    ((setThenSet r q fakeTransport x y).run store).2 (address q) = y := by
  have hmodx : x % 256 = x := Nat.mod_eq_of_lt hx
  have hmody : y % 256 = y := Nat.mod_eq_of_lt hy
  have hne : address r ≠ address q := fun h => hrq (address_injective r q h)
  rw [store_after_setThenSet, store_after_setThenSet, hmodx, hmody]
  refine ⟨?_, ?_, ?_⟩
  · funext a
    by_cases hr : a = address r
    · subst hr
      simp [hne]
    · simp [hr]
  · simp [hne]
  · simp

/-- C25 at R = Ctrl_hum and Q = Ctrl_meas, the bytes 0x02 and 0x25, over a store holding 7
everywhere. -/
theorem writes_to_different_registers_commute_witness :
    Register.Ctrl_hum ≠ Register.Ctrl_meas ∧ (0x02 : Nat) < 256 ∧ (0x25 : Nat) < 256 ∧
    ((setThenSet Register.Ctrl_hum Register.Ctrl_meas fakeTransport 0x02 0x25).run
        (fun _ => 7)).2
      = ((setThenSet Register.Ctrl_meas Register.Ctrl_hum fakeTransport 0x25 0x02).run
        (fun _ => 7)).2 :=
  ⟨by decide, by decide, by decide,
   (writes_to_different_registers_commute Register.Ctrl_hum Register.Ctrl_meas (by decide)
      (fun _ => 7) 0x02 0x25 (by decide) (by decide)).1⟩

end BME680_Base
